import Mathlib

/-!
Verification of the subtitle/text-overlay compiler and font resolver.

This file gives a shallow embedding, in Lean 4, of the pure computational
core of the repository:

* `src/services/font_manager.py` — font-language classification
  (`FontManager._detect_font_language`, `get_font_language`), the language
  labelling round-trip (`get_fonts_with_language_labels`,
  `extract_font_name_from_label`), and the three-tier font path resolution
  (`get_font_path`, `_get_font_path_fallback`).
* `src/services/text_overlay_service.py` — style validation
  (`validate_style`), position expressions
  (`TextOverlayStyle.get_position_expression`), and the FFmpeg command
  builders (`_build_basic_command`, `_build_advanced_effect_command` and the
  per-effect helpers).
* `src/core/subtitle_style.py` — `SubtitleStyle.get_position_filter`.

Modelling conventions:

* Python strings are Lean `String`s; substring search, `str.split` on a
  delimiter, decimal and hexadecimal formatting are given explicit
  executable definitions below mirroring CPython semantics.
* Python `float` time/opacity values are modelled as `ℚ`.  The claims only
  compare these values (`<`, `>`, `<=`), never round them through binary
  floating point in a way a claim depends on, so the rational model is
  faithful.  The decimal rendering of such a value inside a generated
  filter string is modelled by an executable rational renderer
  (`qRepr`); no claim depends on the rendered digits.
* Calls into the outside world (the filesystem `os.path.exists`, the
  `fc-match` subprocess, the JSON font-config tier, `math.cos`/`math.sin`)
  are modelled as explicit oracle parameters threaded through the
  embedding.
* Per-process caches (`_font_cache`, `_font_language_cache`) wrap pure
  functions and are dropped: the cached function is embedded directly.
-/

/-! ## Generic string helpers (CPython semantics) -/

/-- Character-list test: the first list is an initial segment of the second. -/
def lPre : List Char → List Char → Bool
  | [], _ => true
  | _ :: _, [] => false
  | c :: n, d :: h => c == d && lPre n h

/-- Character-list substring test, mirroring Python `needle in hay`. -/
def lSub (n : List Char) : List Char → Bool
  | [] => n.isEmpty
  | c :: rest => lPre n (c :: rest) || lSub n rest

/-- Python substring test `needle in hay` on strings. -/
def strContains (hay needle : String) : Bool := lSub needle.data hay.data

/-- Boolean test that `s` starts with the literal `n` (used by the analysis
predicates over generated filter parts). -/
def startsW (n s : String) : Bool := lPre n.data s.data

/-- Python `str.lower()` restricted to the ASCII range, which is exact for
every font-name character class the classifier tests (ASCII keywords and CJK
characters, which `lower()` leaves unchanged). -/
def strLower (s : String) : String := String.mk (s.data.map Char.toLower)

/-- Decimal digit character for a value below ten. -/
def decDigit : Nat → Char
  | 0 => '0'
  | 1 => '1'
  | 2 => '2'
  | 3 => '3'
  | 4 => '4'
  | 5 => '5'
  | 6 => '6'
  | 7 => '7'
  | 8 => '8'
  | _ => '9'

/-- Fuel-driven digit accumulator (structurally recursive on the fuel, so
that the kernel can evaluate it; the fuel `n` always suffices for the
number `n` itself). -/
def natDigitsAux : Nat → Nat → List Char
  | 0, _ => []
  | _ + 1, 0 => []
  | fuel + 1, n + 1 => natDigitsAux fuel ((n + 1) / 10) ++ [decDigit ((n + 1) % 10)]

/-- Decimal digits (most significant first) of a positive number; `[]` for 0. -/
def natDigits (n : Nat) : List Char := natDigitsAux n n

/-- Decimal rendering of a natural number, as Python `str` on a non-negative
`int`. -/
def natRepr (n : Nat) : String :=
  if n = 0 then "0" else String.mk (natDigits n)

/-- Decimal rendering of an integer, as Python `str` on an `int`. -/
def intRepr (i : Int) : String :=
  if i < 0 then "-" ++ natRepr i.natAbs else natRepr i.toNat

/-- Hexadecimal digit character for a value below sixteen (lowercase, as
Python `%x`). -/
def hexDigit : Nat → Char
  | 0 => '0'
  | 1 => '1'
  | 2 => '2'
  | 3 => '3'
  | 4 => '4'
  | 5 => '5'
  | 6 => '6'
  | 7 => '7'
  | 8 => '8'
  | 9 => '9'
  | 10 => 'a'
  | 11 => 'b'
  | 12 => 'c'
  | 13 => 'd'
  | 14 => 'e'
  | _ => 'f'

/-- Fuel-driven hexadecimal digit accumulator (structurally recursive). -/
def hexDigitsAux : Nat → Nat → List Char
  | 0, _ => []
  | _ + 1, 0 => []
  | fuel + 1, n + 1 => hexDigitsAux fuel ((n + 1) / 16) ++ [hexDigit ((n + 1) % 16)]

/-- Hexadecimal digits (most significant first) of a positive number. -/
def hexDigits (n : Nat) : List Char := hexDigitsAux n n

/-- Python `f"{n:02x}"` for a non-negative value: lowercase hex, left-padded
with zeros to at least two characters. -/
def toHex2 (n : Nat) : String :=
  let d := hexDigits n
  if d.length = 0 then "00"
  else if d.length = 1 then String.mk ('0' :: d)
  else String.mk d

/-- Python `f"{i:02x}"` on an `int` (a negative value renders as a minus sign
followed by the hex digits of its absolute value, the sign counting towards
the pad width). -/
def pyHex2 (i : Int) : String :=
  if i < 0 then "-" ++ String.mk (hexDigits i.natAbs) else toHex2 i.toNat

/-- Rational renderer standing in for Python `str(float)` inside generated
filter strings.  No claim depends on the rendered digits, only on whether the
surrounding clause is present at all. -/
def qRepr (q : ℚ) : String :=
  if q.den = 1 then intRepr q.num else intRepr q.num ++ "/" ++ natRepr q.den

/-- Python `int()` truncation (toward zero) of a rational value. -/
def qTrunc (q : ℚ) : Int :=
  if q < 0 then -(Int.floor (-q)) else Int.floor q

/-- Association-list lookup mirroring a Python `dict` membership test plus
indexing (`k in d and d[k]`). -/
def assocFind {β : Type} (k : String) : List (String × β) → Option β
  | [] => none
  | (a, b) :: rest => if a == k then some b else assocFind k rest

/-- First element of the list satisfying the predicate, mirroring the Python
`for p in paths: if os.path.exists(p): return p` loop. -/
def firstSuchThat (fsx : String → Bool) : List String → Option String
  | [] => none
  | p :: rest => if fsx p then some p else firstSuchThat fsx rest

/-! ## FontManager: language classification
(`src/services/font_manager.py`, lines 66-129) -/

/-- Chinese-script tokens checked against the raw (not lowercased) name. -/
def chineseChars : List String :=
  ["文泉", "微米黑", "正黑", "點陣", "等寬", "驛", "驿", "泉", "微米", "点阵", "等宽"]

/-- Romanized Chinese font keywords. -/
def chineseKeywords : List String := ["wenquan", "wqy", "micro hei", "zen hei"]

/-- Japanese font keywords. -/
def japaneseKeywords : List String :=
  ["japan", "hiragino", "mincho", "gothic", "osaka", "yu gothic", "yu mincho"]

/-- Korean font keywords. -/
def koreanKeywords : List String := ["korea", "malgun", "gulim", "batang"]

/-- Arabic font keywords. -/
def arabicKeywords : List String := ["arab", "naskh", "kufi", "amiri"]

/-- Symbol/icon font keywords. -/
def symbolKeywords : List String :=
  ["emoji", "symbol", "awesome", "icon", "material", "nerd font", "symbols"]

/-- Embedding of `FontManager._detect_font_language`. -/
def detectFontLanguage (fontName : String) : String :=
  let fontLower := strLower fontName
  if chineseChars.any (fun k => strContains fontName k) then "chinese"
  else if chineseKeywords.any (fun k => strContains fontLower k) then "chinese"
  else if strContains fontLower "jp" then "japanese"
  else if japaneseKeywords.any (fun k => strContains fontLower k) then "japanese"
  else if strContains fontLower "kr" then "korean"
  else if koreanKeywords.any (fun k => strContains fontLower k) then "korean"
  else if strContains fontLower "sc" || strContains fontLower "cn" then "chinese"
  else if strContains fontLower "hk" || strContains fontLower "tc" ||
      strContains fontLower "tw" then "chinese"
  else if strContains fontLower "cjk" then "chinese"
  else if arabicKeywords.any (fun k => strContains fontLower k) then "arabic"
  else if symbolKeywords.any (fun k => strContains fontLower k) then "symbol"
  else "latin"

/-- Embedding of `FontManager.get_font_language`: the per-name cache wraps the
pure classifier, so the cached function equals the classifier. -/
def getFontLanguage (fontName : String) : String := detectFontLanguage fontName

/-! ## FontManager: language labels
(`src/services/font_manager.py`, lines 274-314) -/

/-- The `language_names` mapping of `get_fonts_with_language_labels`. -/
def languageNames : List (String × String) :=
  [("latin", "EN"), ("chinese", "CN"), ("japanese", "JP"),
   ("korean", "KR"), ("arabic", "AR"), ("symbol", "SYM")]

/-- One labelled entry produced by `get_fonts_with_language_labels`:
`f"[{label}] {font}"`. -/
def labeledFont (lang font : String) : String :=
  "[" ++ ((assocFind lang languageNames).getD "") ++ "] " ++ font

/-- Drop everything up to and including the first occurrence of the
delimiter `"] "`, scanning left to right; `none` when the delimiter does not
occur.  This is Python `s.split('] ', 1)[1]` when the delimiter is present. -/
def dropThroughDelim : List Char → Option (List Char)
  | [] => none
  | ']' :: ' ' :: rest => some rest
  | _ :: rest => dropThroughDelim rest

/-- Embedding of `FontManager.extract_font_name_from_label`. -/
def extractFontNameFromLabel (labeled : String) : String :=
  match dropThroughDelim labeled.data with
  | some r => String.mk r
  | none => labeled

/-! ## FontManager: font path resolution
(`src/services/font_manager.py`, lines 332-581) -/

/-- The static `font_paths` fallback table of `_get_font_path_fallback`. -/
def fontPathsTable : List (String × List (String × String)) :=
  [("Arial",
    [("regular", "/usr/share/fonts/truetype/liberation/LiberationSans-Regular.ttf"),
     ("bold", "/usr/share/fonts/truetype/liberation/LiberationSans-Bold.ttf"),
     ("fallback", "/usr/share/fonts/truetype/dejavu/DejaVuSans.ttf")]),
   ("Helvetica",
    [("regular", "/usr/share/fonts/truetype/liberation/LiberationSans-Regular.ttf"),
     ("bold", "/usr/share/fonts/truetype/liberation/LiberationSans-Bold.ttf"),
     ("fallback", "/usr/share/fonts/truetype/liberation/LiberationSans-Regular.ttf")]),
   ("DejaVu Sans",
    [("regular", "/usr/share/fonts/truetype/dejavu/DejaVuSans.ttf"),
     ("bold", "/usr/share/fonts/truetype/dejavu/DejaVuSans-Bold.ttf"),
     ("fallback", "/usr/share/fonts/truetype/dejavu/DejaVuSans.ttf")]),
   ("Liberation Sans",
    [("regular", "/usr/share/fonts/truetype/liberation/LiberationSans-Regular.ttf"),
     ("bold", "/usr/share/fonts/truetype/liberation/LiberationSans-Bold.ttf"),
     ("fallback", "/usr/share/fonts/truetype/liberation/LiberationSans-Regular.ttf")]),
   ("Ubuntu",
    [("regular", "/usr/share/fonts/truetype/ubuntu/Ubuntu-R.ttf"),
     ("bold", "/usr/share/fonts/truetype/ubuntu/Ubuntu-B.ttf"),
     ("fallback", "/usr/share/fonts/truetype/ubuntu/Ubuntu-R.ttf")]),
   ("Times New Roman",
    [("regular", "/usr/share/fonts/truetype/liberation/LiberationSerif-Regular.ttf"),
     ("bold", "/usr/share/fonts/truetype/liberation/LiberationSerif-Bold.ttf"),
     ("fallback", "/usr/share/fonts/truetype/dejavu/DejaVuSerif.ttf")]),
   ("Times",
    [("regular", "/usr/share/fonts/truetype/liberation/LiberationSerif-Regular.ttf"),
     ("bold", "/usr/share/fonts/truetype/liberation/LiberationSerif-Bold.ttf"),
     ("fallback", "/usr/share/fonts/truetype/liberation/LiberationSerif-Regular.ttf")]),
   ("DejaVu Serif",
    [("regular", "/usr/share/fonts/truetype/dejavu/DejaVuSerif.ttf"),
     ("bold", "/usr/share/fonts/truetype/dejavu/DejaVuSerif-Bold.ttf"),
     ("fallback", "/usr/share/fonts/truetype/dejavu/DejaVuSerif.ttf")]),
   ("Liberation Serif",
    [("regular", "/usr/share/fonts/truetype/liberation/LiberationSerif-Regular.ttf"),
     ("bold", "/usr/share/fonts/truetype/liberation/LiberationSerif-Bold.ttf"),
     ("fallback", "/usr/share/fonts/truetype/liberation/LiberationSerif-Regular.ttf")]),
   ("Courier New",
    [("regular", "/usr/share/fonts/truetype/liberation/LiberationMono-Regular.ttf"),
     ("bold", "/usr/share/fonts/truetype/liberation/LiberationMono-Bold.ttf"),
     ("fallback", "/usr/share/fonts/truetype/dejavu/DejaVuSansMono.ttf")]),
   ("DejaVu Sans Mono",
    [("regular", "/usr/share/fonts/truetype/dejavu/DejaVuSansMono.ttf"),
     ("bold", "/usr/share/fonts/truetype/dejavu/DejaVuSansMono-Bold.ttf"),
     ("fallback", "/usr/share/fonts/truetype/dejavu/DejaVuSansMono.ttf")]),
   ("Liberation Mono",
    [("regular", "/usr/share/fonts/truetype/liberation/LiberationMono-Regular.ttf"),
     ("bold", "/usr/share/fonts/truetype/liberation/LiberationMono-Bold.ttf"),
     ("fallback", "/usr/share/fonts/truetype/liberation/LiberationMono-Regular.ttf")]),
   ("Impact",
    [("regular", "/usr/share/fonts/truetype/dejavu/DejaVuSans-Bold.ttf"),
     ("bold", "/usr/share/fonts/truetype/dejavu/DejaVuSans-Bold.ttf"),
     ("fallback", "/usr/share/fonts/truetype/liberation/LiberationSans-Bold.ttf")]),
   ("WenQuanYi Zen Hei",
    [("regular", "/usr/share/fonts/truetype/wqy/wqy-zenhei.ttc"),
     ("bold", "/usr/share/fonts/truetype/wqy/wqy-zenhei.ttc"),
     ("fallback", "/usr/share/fonts/truetype/wqy/wqy-zenhei.ttc")]),
   ("WenQuanYi Micro Hei",
    [("regular", "/usr/share/fonts/truetype/wqy/wqy-microhei.ttc"),
     ("bold", "/usr/share/fonts/truetype/wqy/wqy-microhei.ttc"),
     ("fallback", "/usr/share/fonts/truetype/wqy/wqy-microhei.ttc")]),
   ("Noto Sans CJK SC",
    [("regular", "/usr/share/fonts/opentype/noto/NotoSansCJK-Regular.ttc"),
     ("bold", "/usr/share/fonts/opentype/noto/NotoSansCJK-Bold.ttc"),
     ("fallback", "/usr/share/fonts/opentype/noto/NotoSansCJK-Regular.ttc")]),
   ("Noto Serif CJK SC",
    [("regular", "/usr/share/fonts/opentype/noto/NotoSerifCJK-Regular.ttc"),
     ("bold", "/usr/share/fonts/opentype/noto/NotoSerifCJK-Bold.ttc"),
     ("fallback", "/usr/share/fonts/opentype/noto/NotoSerifCJK-Regular.ttc")]),
   ("Lato",
    [("regular", "/usr/share/fonts/truetype/lato/Lato-Regular.ttf"),
     ("bold", "/usr/share/fonts/truetype/lato/Lato-Bold.ttf"),
     ("light", "/usr/share/fonts/truetype/lato/Lato-Light.ttf"),
     ("fallback", "/usr/share/fonts/truetype/lato/Lato-Regular.ttf")])]

/-- The generic `fallback_order` list of `_get_font_path_fallback`. -/
def fallbackOrder : List String :=
  ["/usr/share/fonts/truetype/dejavu/DejaVuSans.ttf",
   "/usr/share/fonts/truetype/dejavu/DejaVuSerif.ttf",
   "/usr/share/fonts/truetype/dejavu/DejaVuSansMono.ttf",
   "/usr/share/fonts/truetype/liberation/LiberationSans-Regular.ttf",
   "/usr/share/fonts/truetype/liberation/LiberationSerif-Regular.ttf",
   "/usr/share/fonts/truetype/liberation/LiberationMono-Regular.ttf",
   "/usr/share/fonts/truetype/wqy/wqy-zenhei.ttc",
   "/usr/share/fonts/truetype/lato/Lato-Regular.ttf"]

/-- The final hard-coded return of `_get_font_path_fallback`. -/
def genericSansSerifPath : String := "/usr/share/fonts/truetype/dejavu/DejaVuSans.ttf"

/-- Look up key `k` in a per-family sub-table and keep the path only when the
existence oracle accepts it (`k in font_config and os.path.exists(...)`). -/
def tryTableKey (cfg : List (String × String)) (k : String) (fsx : String → Bool) :
    Option String :=
  match assocFind k cfg with
  | some p => if fsx p then some p else none
  | none => none

/-- Per-family lookup of `_get_font_path_fallback` (`fsx` is the
`os.path.exists` oracle): the requested weight first, then the `"fallback"`
entry, then the `"regular"` entry. -/
def fromFallbackTable (fontFamily weight : String) (fsx : String → Bool) :
    Option String :=
  match assocFind fontFamily fontPathsTable with
  | some cfg =>
      match tryTableKey cfg weight fsx with
      | some p => some p
      | none =>
          match tryTableKey cfg "fallback" fsx with
          | some p => some p
          | none => tryTableKey cfg "regular" fsx
  | none => none

/-- Embedding of the tail of `_get_font_path_fallback`: the table hit when
there is one, otherwise the first existing generic path, otherwise the fixed
DejaVu Sans file. -/
def getFontPathFallback (fontFamily weight : String) (fsx : String → Bool) : String :=
  match fromFallbackTable fontFamily weight fsx with
  | some p => p
  | none =>
      match firstSuchThat fsx fallbackOrder with
      | some p => p
      | none => genericSansSerifPath

/-- Embedding of `FontManager.get_font_path` (the `_font_cache` is a pure
memoisation and is dropped).  `cfgResult` is the outcome of the config-file
tier `_get_font_path_from_config` (which only ever returns paths accepted by
`os.path.exists`); `fcOutput` is the stdout of a successful `fc-match` run,
`none` when the command failed or raised. -/
def getFontPath (fontFamily weight : String) (cfgResult fcOutput : Option String)
    (fsx : String → Bool) : String :=
  match cfgResult with
  | some p => p
  | none =>
      match fcOutput with
      | some out =>
          let p := out.trim
          if p ≠ "" && fsx p then p
          else getFontPathFallback fontFamily weight fsx
      | none => getFontPathFallback fontFamily weight fsx

/-! ## TextOverlayStyle
(`src/services/text_overlay_service.py`, lines 37-164) -/

/-- An RGB colour triple, components in the machine range the builders format
with `%02x`. -/
structure RGB where
  r : Nat
  g : Nat
  b : Nat
deriving DecidableEq, Repr

/-- Python `f"{r:02x}{g:02x}{b:02x}"`. -/
def hex6 (c : RGB) : String := toHex2 c.r ++ toHex2 c.g ++ toHex2 c.b

/-- Embedding of the `TextOverlayStyle` configuration object (fields read by
the command builders; Python float fields are `ℚ`). -/
structure OverlayStyle where
  position_preset : String
  margin_x : Int
  font_family : String
  font_size : Int
  font_color : RGB
  font_bold : Bool
  background_enabled : Bool
  background_color : RGB
  background_opacity : ℚ
  background_padding : Int
  text_alignment : String
  enable_shadow : Bool
  shadow_color : RGB
  shadow_offset_x : Int
  shadow_offset_y : Int
  enable_border : Bool
  border_color : RGB
  border_width : Int
  line_spacing : Int
  start_time : ℚ
  end_time : Option ℚ
  text_effect : String
  glow_enabled : Bool
  glow_color : RGB
  glow_intensity : Int
  glow_spread : Int
  double_outline_enabled : Bool
  outline_inner_width : Int
  outline_inner_color : RGB
  outline_outer_width : Int
  outline_outer_color : RGB
  neon_enabled : Bool
  neon_base_color : RGB
  neon_glow_layers : Nat
  neon_intensity : Int
  shadow_3d_enabled : Bool
  shadow_3d_layers : Nat
  shadow_3d_depth : Int
  shadow_3d_angle : Int
  glitch_enabled : Bool
  glitch_displacement : Int
  glitch_color_shift : Bool
deriving DecidableEq, Repr

/-- The `TextOverlayStyle.__init__` defaults. -/
def defaultOverlayStyle : OverlayStyle where
  position_preset := "bottom_center"
  margin_x := 50
  font_family := "Arial"
  font_size := 24
  font_color := ⟨0, 0, 0⟩
  font_bold := false
  background_enabled := true
  background_color := ⟨255, 255, 255⟩
  background_opacity := 4 / 5
  background_padding := 10
  text_alignment := "center"
  enable_shadow := false
  shadow_color := ⟨128, 128, 128⟩
  shadow_offset_x := 2
  shadow_offset_y := 2
  enable_border := false
  border_color := ⟨0, 0, 0⟩
  border_width := 1
  line_spacing := 4
  start_time := 0
  end_time := none
  text_effect := "none"
  glow_enabled := false
  glow_color := ⟨255, 255, 255⟩
  glow_intensity := 8
  glow_spread := 2
  double_outline_enabled := false
  outline_inner_width := 2
  outline_inner_color := ⟨255, 255, 255⟩
  outline_outer_width := 4
  outline_outer_color := ⟨0, 0, 0⟩
  neon_enabled := false
  neon_base_color := ⟨255, 20, 147⟩
  neon_glow_layers := 3
  neon_intensity := 10
  shadow_3d_enabled := false
  shadow_3d_layers := 5
  shadow_3d_depth := 3
  shadow_3d_angle := 225
  glitch_enabled := false
  glitch_displacement := 3
  glitch_color_shift := true

/-- Embedding of `TextOverlayStyle.get_position_expression` (the video
dimensions are accepted but unused, exactly as in the source). -/
def getPositionExpression (s : OverlayStyle) (videoWidth videoHeight : Int) :
    String × String :=
  let x :=
    if s.text_alignment == "left" then
      if 0 < s.margin_x then intRepr s.margin_x else "0"
    else if s.text_alignment == "right" then
      if 0 < s.margin_x then "w-text_w-" ++ intRepr s.margin_x else "w-text_w"
    else
      if 0 < s.margin_x then
        "(w-text_w-" ++ intRepr (s.margin_x * 2) ++ ")/2+" ++ intRepr s.margin_x
      else "(w-text_w)/2"
  let y :=
    if s.position_preset == "bottom" then "h-text_h-h*0.05"
    else if s.position_preset == "bottom_low" then "h-text_h-h*0.03"
    else if s.position_preset == "bottom_high" then "h-text_h-h*0.08"
    else if s.position_preset == "center" then "(h-text_h)/2"
    else if s.position_preset == "center_low" then "(h-text_h)/2+h*0.05"
    else if s.position_preset == "center_high" then "(h-text_h)/2-h*0.05"
    else if s.position_preset == "top" then "h*0.08"
    else if s.position_preset == "top_low" then "h*0.15"
    else if s.position_preset == "top_high" then "h*0.03"
    else "h-text_h-h*0.05"
  (x, y)

/-! ## TextOverlayService.validate_style
(`src/services/text_overlay_service.py`, lines 503-542).  A colour field is a
Python tuple whose components may or may not be `int`s; a component is
`some v` when it is the integer `v` and `none` when it is a non-integer
value. -/

/-- The style fields `validate_style` reads. -/
structure RawStyle where
  start_time : ℚ
  end_time : Option ℚ
  font_color : List (Option Int)
  background_color : List (Option Int)
  shadow_color : List (Option Int)
  border_color : List (Option Int)
  background_opacity : ℚ
  font_size : Int
deriving DecidableEq

/-- The per-component error message of `validate_style`. -/
def compMsg (name : String) (i : Nat) : String :=
  name ++ "的第" ++ natRepr (i + 1) ++ "个分量必须是0-255之间的整数"

/-- The component loop of `validate_style`: first offending component wins. -/
def checkComps (name : String) : Nat → List (Option Int) → Option String
  | _, [] => none
  | i, some v :: rest =>
      if v < 0 ∨ 255 < v then some (compMsg name i) else checkComps name (i + 1) rest
  | i, none :: _ => some (compMsg name i)

/-- One colour check of `validate_style`: the tuple must have exactly three
components, each an integer in `[0, 255]`. -/
def checkColor (name : String) (c : List (Option Int)) : Option String :=
  if c.length ≠ 3 then some (name ++ "必须是包含3个元素的元组")
  else checkComps name 0 c

/-- Embedding of `TextOverlayService.validate_style`. -/
def validateStyle (s : RawStyle) : Bool × String :=
  if s.start_time < 0 then (false, "开始时间不能为负数")
  else if (match s.end_time with
           | some e => decide (e ≤ s.start_time)
           | none => false) then (false, "结束时间必须大于开始时间")
  else match checkColor "字体颜色" s.font_color with
  | some m => (false, m)
  | none =>
    match checkColor "背景颜色" s.background_color with
    | some m => (false, m)
    | none =>
      match checkColor "阴影颜色" s.shadow_color with
      | some m => (false, m)
      | none =>
        match checkColor "边框颜色" s.border_color with
        | some m => (false, m)
        | none =>
          if ¬ (0 ≤ s.background_opacity ∧ s.background_opacity ≤ 1) then
            (false, "背景透明度必须在0-1之间")
          else if s.font_size ≤ 0 then (false, "字体大小必须大于0")
          else (true, "")

/-! ## Basic FFmpeg command
(`src/services/text_overlay_service.py`, lines 328-417).  `resolve` is the
font manager oracle `get_font_path` (family, weight → path). -/

/-- Python text escaping: `replace(':', '\\:')` then `replace("'", "\\'")`
(the first pass introduces no quotes, so one pass over the characters is
exact). -/
def escapeText (t : String) : String :=
  String.mk ((t.data.map fun c =>
    if c = ':' then ['\\', ':']
    else if c = '\'' then ['\\', '\'']
    else [c]).join)

/-- Strip a language label from the configured family name when present
(`font_name.startswith('[') and '] ' in font_name`). -/
def resolveFontName (family : String) : String :=
  if startsW "[" family && strContains family "] " then
    extractFontNameFromLabel family
  else family

/-- Font path selection of the builders: bold weight when `font_bold`. -/
def baseFontPath (resolve : String → String → String) (s : OverlayStyle) : String :=
  if s.font_bold then resolve (resolveFontName s.font_family) "bold"
  else resolve (resolveFontName s.font_family) "regular"

/-- The `filter_parts` list built by `_build_basic_command`. -/
def basicFilterParts (resolve : String → String → String) (s : OverlayStyle)
    (text : String) (vw vh : Int) (dur : ℚ) : List String :=
  let xy := getPositionExpression s vw vh
  let endT := s.end_time.getD dur
  ["text='" ++ escapeText text ++ "'",
   "fontfile=" ++ baseFontPath resolve s,
   "fontsize=" ++ intRepr s.font_size,
   "fontcolor=0x" ++ hex6 s.font_color,
   "x=" ++ xy.1,
   "y=" ++ xy.2]
  ++ (if 0 ≤ s.line_spacing then ["line_spacing=" ++ intRepr s.line_spacing] else [])
  ++ (if s.background_enabled then
        ["box=1",
         "boxcolor=0x" ++ hex6 s.background_color ++
           pyHex2 (qTrunc (s.background_opacity * 255)),
         "boxborderw=" ++ intRepr s.background_padding]
      else [])
  ++ (if s.enable_border then
        ["borderw=" ++ intRepr s.border_width,
         "bordercolor=0x" ++ hex6 s.border_color]
      else [])
  ++ (if s.enable_shadow then
        ["shadowcolor=0x" ++ hex6 s.shadow_color,
         "shadowx=" ++ intRepr s.shadow_offset_x,
         "shadowy=" ++ intRepr s.shadow_offset_y]
      else [])
  ++ (if 0 < s.start_time ∨ endT < dur then
        ["enable='between(t," ++ qRepr s.start_time ++ "," ++ qRepr endT ++ ")'"]
      else [])

/-- Embedding of `_build_basic_command`: the full argument list. -/
def buildBasicCommand (resolve : String → String → String)
    (videoPath text outputPath : String) (s : OverlayStyle)
    (vw vh : Int) (dur : ℚ) : List String :=
  ["ffmpeg", "-i", videoPath, "-vf",
   "drawtext=" ++ String.intercalate ":" (basicFilterParts resolve s text vw vh dur),
   "-c:a", "copy", "-y", outputPath]

/-! ## Advanced effect chains
(`src/services/text_overlay_service.py`, lines 419-468 and 546-787).  Each
`filter_complex` entry `f"[{inp}]drawtext={params}[{out}]"` is modelled as a
structured primitive; `renderPrim` recovers the exact source string. -/

/-- One `drawtext` primitive of the `filter_complex` chain. -/
structure Prim where
  inL : String
  parts : List String
  outL : String
deriving DecidableEq, Repr

/-- Serialize one primitive into the exact string the source appends to
`filter_complex`. -/
def renderPrim (p : Prim) : String :=
  "[" ++ p.inL ++ "]drawtext=" ++ String.intercalate ":" p.parts ++ "[" ++ p.outL ++ "]"

/-- The `base_filter_parts` of `_get_base_text_config`. -/
def baseTextConfig (resolve : String → String → String) (s : OverlayStyle)
    (text : String) (vw vh : Int) (dur : ℚ) : List String :=
  let xy := getPositionExpression s vw vh
  let endT := s.end_time.getD dur
  ["text='" ++ escapeText text ++ "'",
   "fontfile=" ++ baseFontPath resolve s,
   "fontsize=" ++ intRepr s.font_size,
   "x=" ++ xy.1,
   "y=" ++ xy.2]
  ++ (if 0 ≤ s.line_spacing then ["line_spacing=" ++ intRepr s.line_spacing] else [])
  ++ (if 0 < s.start_time ∨ endT < dur then
        ["enable='between(t," ++ qRepr s.start_time ++ "," ++ qRepr endT ++ ")'"]
      else [])

/-- The repeated layer loop of the effect builders: layer `i` consumes the
current input label and emits label `lbl i`. -/
def layerLoop (mk : Nat → List String) (lbl : Nat → String) :
    String → Nat → Nat → List Prim × String
  | inL, _, 0 => ([], inL)
  | inL, i, k + 1 =>
      let p : Prim := ⟨inL, mk i, lbl i⟩
      let rest := layerLoop mk lbl (lbl i) (i + 1) k
      (p :: rest.1, rest.2)

/-- Main-text parts shared by the glow / 3D-shadow / glitch builders:
font colour plus the optional border. -/
def mainTextParts (bp : List String) (s : OverlayStyle) : List String :=
  bp ++ ["fontcolor=0x" ++ hex6 s.font_color]
     ++ (if s.enable_border then
           ["borderw=" ++ intRepr s.border_width,
            "bordercolor=0x" ++ hex6 s.border_color]
         else [])

/-- Glow layer `i` of `_add_glow_effect`: glow colour as fill and shadow
colour, offset `i`, blur `glow_intensity + i*2`. -/
def glowLayerParts (bp : List String) (s : OverlayStyle) (i : Nat) : List String :=
  bp ++ ["fontcolor=0x" ++ hex6 s.glow_color,
         "shadowcolor=0x" ++ hex6 s.glow_color,
         "shadowx=" ++ natRepr i,
         "shadowy=" ++ natRepr i,
         "shadowblur=" ++ intRepr (s.glow_intensity + (i : Int) * 2)]

/-- Embedding of `_add_glow_effect` (a fixed `range(3)` of glow layers). -/
def addGlowEffect (bp : List String) (inL : String) (s : OverlayStyle) :
    List Prim × String :=
  let loopRes := layerLoop (glowLayerParts bp s) (fun i => "glow" ++ natRepr i) inL 0 3
  (loopRes.1 ++ [⟨loopRes.2, mainTextParts bp s, "glow_final"⟩], "glow_final")

/-- Embedding of `_add_double_outline_effect` (inner pass and main pass take
their input labels from the hard-coded strings of the source). -/
def addDoubleOutlineEffect (bp : List String) (inL : String) (s : OverlayStyle) :
    List Prim × String :=
  ([⟨inL,
     bp ++ ["fontcolor=0x00000000",
            "borderw=" ++ intRepr s.outline_outer_width,
            "bordercolor=0x" ++ hex6 s.outline_outer_color], "outer_outline"⟩,
    ⟨"outer_outline",
     bp ++ ["fontcolor=0x00000000",
            "borderw=" ++ intRepr s.outline_inner_width,
            "bordercolor=0x" ++ hex6 s.outline_inner_color], "double_outline"⟩,
    ⟨"double_outline",
     bp ++ ["fontcolor=0x" ++ hex6 s.font_color], "double_final"⟩],
   "double_final")

/-- The per-layer shadow alpha of `_add_neon_effect`:
`max(80 - i * 20, 20)`. -/
def neonAlpha (i : Nat) : Int := max (80 - 20 * (i : Int)) 20

/-- Neon layer `i` of `_add_neon_effect`: transparent fill, neon shadow
colour with alpha, zero offsets.  The source also computes
`blur_size = neon_intensity + i * 3` but never appends it to the parts. -/
def neonLayerParts (bp : List String) (s : OverlayStyle) (i : Nat) : List String :=
  bp ++ ["fontcolor=0x00000000",
         "shadowcolor=0x" ++ hex6 s.neon_base_color ++ pyHex2 (neonAlpha i),
         "shadowx=0",
         "shadowy=0"]

/-- Embedding of `_add_neon_effect`. -/
def addNeonEffect (bp : List String) (inL : String) (s : OverlayStyle) :
    List Prim × String :=
  let loopRes := layerLoop (neonLayerParts bp s) (fun i => "neon" ++ natRepr i) inL 0
    s.neon_glow_layers
  (loopRes.1 ++
    [⟨loopRes.2,
      bp ++ ["fontcolor=0x" ++ hex6 s.neon_base_color,
             "borderw=2",
             "bordercolor=0xFFFFFFFF"], "neon_final"⟩],
   "neon_final")

/-- The per-layer shadow alpha of `_add_3d_shadow_effect`:
`max(150 - i * 25, 30)`. -/
def shadow3dAlpha (i : Nat) : Int := max (150 - 25 * (i : Int)) 30

/-- 3D-shadow layer `i` of `_add_3d_shadow_effect`.  `trig` is the
`math.cos`/`math.sin` oracle on the angle in degrees (floating-point
trigonometry is not shallowly embeddable; no claim depends on the offset
values). -/
def shadow3dLayerParts (trig : Int → ℚ × ℚ) (bp : List String) (s : OverlayStyle)
    (i : Nat) : List String :=
  let base := trig s.shadow_3d_angle
  let offX := base.1 * s.shadow_3d_depth * ((i : Int) + 1)
  let offY := base.2 * s.shadow_3d_depth * ((i : Int) + 1)
  bp ++ ["fontcolor=0x000000" ++ pyHex2 (shadow3dAlpha i),
         "shadowcolor=0x000000" ++ pyHex2 (shadow3dAlpha i),
         "shadowx=" ++ intRepr (qTrunc offX),
         "shadowy=" ++ intRepr (qTrunc offY)]

/-- Embedding of `_add_3d_shadow_effect`. -/
def add3dShadowEffect (trig : Int → ℚ × ℚ) (bp : List String) (inL : String)
    (s : OverlayStyle) : List Prim × String :=
  let loopRes := layerLoop (shadow3dLayerParts trig bp s)
    (fun i => "shadow3d" ++ natRepr i) inL 0 s.shadow_3d_layers
  (loopRes.1 ++ [⟨loopRes.2, mainTextParts bp s, "shadow3d_final"⟩], "shadow3d_final")

/-- Python `base_parts[3].split('=')[1]`: the text between the first and the
second `'='` of the x-position part. -/
def extractAfterEq (s : String) : String :=
  String.mk (((s.data.dropWhile fun c => c != '=').drop 1).takeWhile fun c => c != '=')

/-- Embedding of `_add_glitch_effect`. -/
def addGlitchEffect (bp : List String) (inL : String) (s : OverlayStyle) :
    List Prim × String :=
  let xExprStr := extractAfterEq (bp.getD 3 "")
  let shifted : List Prim × String :=
    if s.glitch_color_shift then
      ([⟨inL,
         bp ++ ["fontcolor=0xFF0000FF",
                "x=" ++ xExprStr ++ "+" ++ intRepr s.glitch_displacement], "glitch_red"⟩,
        ⟨"glitch_red",
         bp ++ ["fontcolor=0x00FFFFFF",
                "x=" ++ xExprStr ++ "-" ++ intRepr s.glitch_displacement], "glitch_color"⟩],
       "glitch_color")
    else ([], inL)
  (shifted.1 ++ [⟨shifted.2, mainTextParts bp s, "glitch_final"⟩], "glitch_final")

/-- The effect dispatch of `_build_advanced_effect_command` (lines 434-459):
an if/elif chain over the five enable flags, with a basic drawtext fallback. -/
def advChain (resolve : String → String → String) (trig : Int → ℚ × ℚ)
    (s : OverlayStyle) (text : String) (vw vh : Int) (dur : ℚ) :
    List Prim × String :=
  let inL := "0:v"
  let bp := baseTextConfig resolve s text vw vh dur
  if s.glow_enabled then addGlowEffect bp inL s
  else if s.double_outline_enabled then addDoubleOutlineEffect bp inL s
  else if s.neon_enabled then addNeonEffect bp inL s
  else if s.shadow_3d_enabled then add3dShadowEffect trig bp inL s
  else if s.glitch_enabled then addGlitchEffect bp inL s
  else ([⟨inL, bp, "out"⟩], "out")

/-- Embedding of `_build_advanced_effect_command`: the full argument list. -/
def buildAdvancedCommand (resolve : String → String → String) (trig : Int → ℚ × ℚ)
    (videoPath text outputPath : String) (s : OverlayStyle)
    (vw vh : Int) (dur : ℚ) : List String :=
  let res := advChain resolve trig s text vw vh dur
  ["ffmpeg", "-i", videoPath, "-filter_complex",
   String.intercalate ";" (res.1.map renderPrim),
   "-map", "[" ++ res.2 ++ "]", "-c:a", "copy", "-y", outputPath]

/-- The advanced-effects test of `_build_ffmpeg_command` (lines 309-315). -/
def anyEffectEnabled (s : OverlayStyle) : Bool :=
  s.glow_enabled || s.double_outline_enabled || s.neon_enabled ||
  s.shadow_3d_enabled || s.glitch_enabled

/-- Embedding of `_build_ffmpeg_command`. -/
def buildFFmpegCommand (resolve : String → String → String) (trig : Int → ℚ × ℚ)
    (videoPath text outputPath : String) (s : OverlayStyle)
    (vw vh : Int) (dur : ℚ) : List String :=
  if anyEffectEnabled s then
    buildAdvancedCommand resolve trig videoPath text outputPath s vw vh dur
  else
    buildBasicCommand resolve videoPath text outputPath s vw vh dur

/-! ## SubtitleStyle.get_position_filter
(`src/core/subtitle_style.py`, lines 11-106) -/

/-- The `SubtitlePosition` enum. -/
inductive SubtitlePosition where
  | bottom_center
  | bottom_left
  | bottom_right
  | top_center
  | top_left
  | top_right
  | center
  | custom
deriving DecidableEq, Repr

/-- Python `x or 0` on an optional int (`None` and `0` are both falsy and
give `0`, any other value passes through — which coincides with a plain
default). -/
def pyOrZero (o : Option Int) : Int := o.getD 0

/-- Embedding of `SubtitleStyle.get_position_filter`, returning the `x` and
`y` expressions (the video dimensions are accepted but unused, as in the
source). -/
def getPositionFilter (pos : SubtitlePosition) (marginX marginY : Int)
    (customX customY : Option Int) : String × String :=
  match pos with
  | .bottom_center => ("(w-text_w)/2", "h-text_h-" ++ intRepr marginY)
  | .bottom_left => (intRepr marginX, "h-text_h-" ++ intRepr marginY)
  | .bottom_right => ("w-text_w-" ++ intRepr marginX, "h-text_h-" ++ intRepr marginY)
  | .top_center => ("(w-text_w)/2", intRepr marginY)
  | .top_left => (intRepr marginX, intRepr marginY)
  | .top_right => ("w-text_w-" ++ intRepr marginX, intRepr marginY)
  | .center => ("(w-text_w)/2", "(h-text_h)/2")
  | .custom => (intRepr (pyOrZero customX), intRepr (pyOrZero customY))

/-- The combined return string `f"x={x}:y={y}"` of `get_position_filter`. -/
def positionFilterString (pos : SubtitlePosition) (marginX marginY : Int)
    (customX customY : Option Int) : String :=
  let xy := getPositionFilter pos marginX marginY customX customY
  "x=" ++ xy.1 ++ ":y=" ++ xy.2

/-! ## Position-expression symbol analysis (claim C8).  An expression is
acceptable when it is non-empty, each character is a symbol character, a
digit, or an arithmetic/grouping character, and every maximal identifier run
is one of `w`, `h`, `text_w`, `text_h`. -/

/-- Characters that can form an identifier inside a position expression. -/
def isIdentChar (c : Char) : Bool := c.isAlpha || c == '_'

/-- The only variables a position expression may reference. -/
def allowedIdents : List String := ["w", "h", "text_w", "text_h"]

/-- Check of one completed identifier run. -/
def runOk (acc : List Char) : Bool :=
  acc.isEmpty || allowedIdents.contains (String.mk acc)

/-- Scanner collecting maximal identifier runs and checking each against
`allowedIdents`; `acc` is the identifier run currently open. -/
def scanOk (acc : List Char) : List Char → Bool
  | [] => runOk acc
  | c :: rest =>
      if isIdentChar c then scanOk (acc ++ [c]) rest
      else runOk acc && scanOk [] rest

/-- Characters allowed anywhere in a position expression: identifier
characters, digits, and the arithmetic/grouping characters the generator
emits. -/
def allowedChar (c : Char) : Bool :=
  isIdentChar c || c.isDigit ||
  ['(', ')', '+', '-', '*', '/', '.'].contains c

/-- The claim-C8 acceptance predicate on a generated position expression. -/
def exprOk (s : String) : Bool :=
  !s.data.isEmpty && s.data.all allowedChar && scanOk [] s.data

/-! ## Effect-flag dispatch order (claim C4) -/

/-- The five advanced-effect kinds, in the dispatch order of
`_build_advanced_effect_command`. -/
inductive EffectFlag where
  | glow
  | doubleOutline
  | neon
  | shadow3d
  | glitch
deriving DecidableEq, Repr

/-- First enabled flag in the fixed if/elif order of the source
(glow, double outline, neon, 3D shadow, glitch). -/
def firstEffectFlag (s : OverlayStyle) : Option EffectFlag :=
  if s.glow_enabled then some .glow
  else if s.double_outline_enabled then some .doubleOutline
  else if s.neon_enabled then some .neon
  else if s.shadow_3d_enabled then some .shadow3d
  else if s.glitch_enabled then some .glitch
  else none

/-- Number of advanced-effect enable flags set on a style. -/
def countEffectFlags (s : OverlayStyle) : Nat :=
  (if s.glow_enabled then 1 else 0) +
  (if s.double_outline_enabled then 1 else 0) +
  (if s.neon_enabled then 1 else 0) +
  (if s.shadow_3d_enabled then 1 else 0) +
  (if s.glitch_enabled then 1 else 0)

/-- The style with every effect flag cleared except the first matching one. -/
def onlyFirstEffect (s : OverlayStyle) : OverlayStyle :=
  { s with
    glow_enabled := firstEffectFlag s == some .glow
    double_outline_enabled := firstEffectFlag s == some .doubleOutline
    neon_enabled := firstEffectFlag s == some .neon
    shadow_3d_enabled := firstEffectFlag s == some .shadow3d
    glitch_enabled := firstEffectFlag s == some .glitch }

/-- Chain labelling discipline: each primitive consumes the previous
primitive's output label, starting from the given input label. -/
def wellChained : String → List Prim → Bool
  | _, [] => true
  | l, p :: ps => p.inL == l && wellChained p.outL ps

/-- Output label of the last primitive in a chain (the input label for an
empty chain). -/
def lastOutLabel (inL : String) (ps : List Prim) : String :=
  match ps with
  | [] => inL
  | p :: rest => lastOutLabel p.outL rest

/-! ## Analysis predicates used by the claims -/

/-- Some part of the filter-parameter list starts with the given literal. -/
def hasPartWith (pre : String) (parts : List String) : Bool :=
  parts.any (startsW pre)

/-- A primitive draws with a fully transparent fill, the way the source
expresses it (`fontcolor=0x00000000`). -/
def transparentFillParts (parts : List String) : Bool :=
  parts.contains "fontcolor=0x00000000"

/-- A colour tuple acceptable to `validate_style`: exactly three components,
each an integer in `[0, 255]`. -/
def colorOk3 (c : List (Option Int)) : Prop :=
  c.length = 3 ∧ ∀ x ∈ c, ∃ v, x = some v ∧ 0 ≤ v ∧ v ≤ 255

/-- The colour shape claim C3 asserts `validate_style` accepts: three or four
integer components, each in `[0, 255]`. -/
def colorOk34 (c : List (Option Int)) : Prop :=
  (c.length = 3 ∨ c.length = 4) ∧ ∀ x ∈ c, ∃ v, x = some v ∧ 0 ≤ v ∧ v ≤ 255

/-! ## Helper lemmas -/

/-- A successful association-list lookup returns the value of some entry. -/
theorem assocFind_mem {β : Type} (k : String) (v : β) :
    ∀ l : List (String × β), assocFind k l = some v → ∃ kv, kv ∈ l ∧ kv.2 = v := by
  intro l
  induction l with
  | nil => intro h; simp [assocFind] at h
  | cons kv rest ih =>
      intro h
      obtain ⟨a, b⟩ := kv
      by_cases hk : (a == k) = true
      · refine ⟨(a, b), List.mem_cons_self _ _, ?_⟩
        simpa [assocFind, hk] using h
      · simp only [assocFind, hk, Bool.false_eq_true, if_false] at h
        obtain ⟨kv2, hkv2, hv⟩ := ih h
        exact ⟨kv2, List.mem_cons_of_mem _ hkv2, hv⟩

/-- A successful linear search returns an element of the list. -/
theorem firstSuchThat_mem (fsx : String → Bool) (p : String) :
    ∀ l : List String, firstSuchThat fsx l = some p → p ∈ l := by
  intro l
  induction l with
  | nil => intro h; simp [firstSuchThat] at h
  | cons q rest ih =>
      intro h
      by_cases hq : fsx q = true
      · simp only [firstSuchThat, hq, if_true, Option.some.injEq] at h
        exact h ▸ List.mem_cons_self _ _
      · simp only [firstSuchThat, hq, Bool.false_eq_true, if_false] at h
        exact List.mem_cons_of_mem _ (ih h)

/-- A successful per-family table probe returns the value of some entry. -/
theorem tryTableKey_mem (cfg : List (String × String)) (k : String)
    (fsx : String → Bool) (p : String) (h : tryTableKey cfg k fsx = some p) :
    ∃ kv, kv ∈ cfg ∧ kv.2 = p := by
  unfold tryTableKey at h
  split at h
  · split at h
    · next q hq _ =>
        obtain ⟨kv, hkv, hv⟩ := assocFind_mem k q cfg hq
        exact ⟨kv, hkv, by rw [hv]; exact Option.some.inj h⟩
    · exact absurd h (by simp)
  · exact absurd h (by simp)

/-- A successful fallback-table resolution returns a path stored in the
static table. -/
theorem fromFallbackTable_mem (fam w : String) (fsx : String → Bool) (p : String)
    (h : fromFallbackTable fam w fsx = some p) :
    ∃ kv, kv ∈ fontPathsTable ∧ ∃ e, e ∈ kv.2 ∧ e.2 = p := by
  unfold fromFallbackTable at h
  split at h
  · next cfg hcfg =>
      obtain ⟨kv, hkv, hkveq⟩ := assocFind_mem fam cfg fontPathsTable hcfg
      have sub : ∀ q, tryTableKey cfg w fsx = some q ∨
          tryTableKey cfg "fallback" fsx = some q ∨
          tryTableKey cfg "regular" fsx = some q → ∃ e, e ∈ cfg ∧ e.2 = q := by
        intro q hq
        rcases hq with h1 | h2 | h3
        · exact tryTableKey_mem cfg w fsx q h1
        · exact tryTableKey_mem cfg "fallback" fsx q h2
        · exact tryTableKey_mem cfg "regular" fsx q h3
      have hq : ∃ e, e ∈ cfg ∧ e.2 = p := by
        split at h
        · exact sub p (Or.inl (by rw [← Option.some.inj h]; assumption))
        · split at h
          · exact sub p (Or.inr (Or.inl (by rw [← Option.some.inj h]; assumption)))
          · exact sub p (Or.inr (Or.inr h))
      obtain ⟨e, he, hep⟩ := hq
      exact ⟨kv, hkv, e, hkveq ▸ he, hep⟩
  · exact absurd h (by simp)

/-- Every path stored in the static fallback table is non-empty. -/
theorem tableNonempty : ∀ kv ∈ fontPathsTable, ∀ e ∈ kv.2, e.2 ≠ "" := by decide

/-- Every path in the generic fallback list is non-empty. -/
theorem fallbackOrderNonempty : ∀ p ∈ fallbackOrder, p ≠ "" := by decide

/-- The static path fallback always produces a non-empty path, whatever the
filesystem looks like. -/
theorem fallback_nonempty (fam w : String) (fsx : String → Bool) :
    getFontPathFallback fam w fsx ≠ "" := by
  unfold getFontPathFallback
  split
  · next p hp =>
      obtain ⟨kv, hkv, e, he, hep⟩ := fromFallbackTable_mem fam w fsx p hp
      exact hep ▸ tableNonempty kv hkv e he
  · split
    · next p hp =>
        exact fallbackOrderNonempty p (firstSuchThat_mem fsx p _ hp)
    · decide

/-- With no existing file, a per-family table probe yields nothing. -/
theorem tryTableKey_allFalse (cfg : List (String × String)) (k : String) :
    tryTableKey cfg k (fun _ => false) = none := by
  unfold tryTableKey
  cases assocFind k cfg <;> simp

/-! ## Claim C1 -/

/-- Claim C1 (code_bug evaluation): the spec asserts
`classify("Malgun Gothic") == korean`, and the code clearly intends it (the
Korean keyword list contains `"malgun"` and the Korean priority table lists
`"Malgun Gothic"`), but `_detect_font_language` checks the Japanese keyword
list — which contains `"gothic"` — before the Korean one, so
`get_font_language "Malgun Gothic"` actually returns `"japanese"`, never
`"korean"`. -/
theorem malgun_gothic_classifies_japanese :
    getFontLanguage "Malgun Gothic" = "japanese" ∧
    getFontLanguage "Malgun Gothic" ≠ "korean" ∧
    "malgun" ∈ koreanKeywords ∧ "gothic" ∈ japaneseKeywords := by
  refine ⟨?_, ?_, ?_, ?_⟩ <;> decide

/-! ## Claim C9 -/

/-- Claim C9: wrapping any family name with one of the six language labels,
as `get_fonts_with_language_labels` does, and then applying
`extract_font_name_from_label` returns exactly the original name, for every
name not already containing the `"] "` delimiter. -/
theorem label_strip_roundtrip (lang font : String)
    (hlang : lang ∈ ["latin", "chinese", "japanese", "korean", "arabic", "symbol"])
    (hfont : strContains font "] " = false) :
    extractFontNameFromLabel (labeledFont lang font) = font := by
  fin_cases hlang <;> rfl

/-- Witness for claim C9 at the concrete input `("korean", "Malgun Gothic")`. -/
theorem label_strip_roundtrip_witness :
    "korean" ∈ ["latin", "chinese", "japanese", "korean", "arabic", "symbol"] ∧
    strContains "Malgun Gothic" "] " = false ∧
    extractFontNameFromLabel (labeledFont "korean" "Malgun Gothic") = "Malgun Gothic" :=
  ⟨by decide, by decide,
   label_strip_roundtrip "korean" "Malgun Gothic" (by decide) (by decide)⟩

/-! ## Claim C5 -/

/-- Claim C5: for every family name and weight string, `get_font_path`
returns a non-empty path: the config tier only hands out paths accepted by
the existence oracle (and the empty string is never an existing path), the
`fc-match` tier is guarded by a non-empty/existence check, and the static
fallback tier only returns non-empty table paths, terminating in the fixed
generic sans-serif file when nothing exists at all. -/
theorem get_font_path_never_fails (fontFamily weight : String)
    (cfgResult fcOutput : Option String) (fsx : String → Bool)
    (hcfg : ∀ p, cfgResult = some p → fsx p = true)
    (hempty : fsx "" = false) :
    getFontPath fontFamily weight cfgResult fcOutput fsx ≠ "" ∧
    getFontPathFallback fontFamily weight (fun _ => false) = genericSansSerifPath := by
  constructor
  · unfold getFontPath
    cases cfgResult with
    | some p =>
        show p ≠ ""
        intro hp0
        have hfp := hcfg p rfl
        rw [hp0, hempty] at hfp
        exact Bool.noConfusion hfp
    | none =>
        cases fcOutput with
        | some out =>
            show (if (decide (out.trim ≠ "") && fsx out.trim) = true then out.trim
                  else getFontPathFallback fontFamily weight fsx) ≠ ""
            split
            · next hcond =>
                intro h0
                rw [h0] at hcond
                simp at hcond
            · exact fallback_nonempty _ _ _
        | none => exact fallback_nonempty _ _ _
  · have h1 : fromFallbackTable fontFamily weight (fun _ => false) = none := by
      unfold fromFallbackTable
      cases assocFind fontFamily fontPathsTable with
      | some cfg => simp [tryTableKey_allFalse]
      | none => rfl
    unfold getFontPathFallback
    rw [h1]
    rfl

/-- Witness for claim C5 on a completely unknown family with an unknown
weight, an empty config tier, a failed `fc-match`, and a filesystem where no
path exists. -/
theorem get_font_path_never_fails_witness :
    (∀ p, (none : Option String) = some p → (fun _ : String => false) p = true) ∧
    (fun _ : String => false) "" = false ∧
    (getFontPath "Unknown Family" "heavy" none none (fun _ => false) ≠ "" ∧
     getFontPathFallback "Unknown Family" "heavy" (fun _ => false) = genericSansSerifPath) :=
  ⟨(fun _ h => nomatch h), rfl,
   get_font_path_never_fails "Unknown Family" "heavy" none none (fun _ => false)
     (fun _ h => nomatch h) rfl⟩

/-- The component loop succeeds exactly when every component is an integer in
`[0, 255]`. -/
theorem checkComps_eq_none (name : String) :
    ∀ (l : List (Option Int)) (i : Nat),
      checkComps name i l = none ↔ ∀ x ∈ l, ∃ v, x = some v ∧ 0 ≤ v ∧ v ≤ 255 := by
  intro l
  induction l with
  | nil => intro i; simp [checkComps]
  | cons x rest ih =>
      intro i
      cases x with
      | some v =>
          by_cases hv : v < 0 ∨ 255 < v
          · simp only [checkComps, if_pos hv]
            constructor
            · intro h; exact absurd h (by simp)
            · intro h
              obtain ⟨w, hw, h0, h255⟩ := h (some v) (List.mem_cons_self _ _)
              obtain rfl : v = w := Option.some.inj hw
              omega
          · simp only [checkComps, if_neg hv, ih]
            constructor
            · intro h y hy
              rcases List.mem_cons.mp hy with rfl | hy2
              · exact ⟨v, rfl, by omega, by omega⟩
              · exact h y hy2
            · intro h y hy; exact h y (List.mem_cons_of_mem _ hy)
      | none =>
          simp only [checkComps]
          constructor
          · intro h; exact absurd h (by simp)
          · intro h
            obtain ⟨w, hw, _, _⟩ := h none (List.mem_cons_self _ _)
            exact absurd hw (by simp)

/-- One colour check succeeds exactly when the colour has the accepted
three-component shape. -/
theorem checkColor_eq_none (name : String) (c : List (Option Int)) :
    checkColor name c = none ↔ colorOk3 c := by
  unfold checkColor colorOk3
  by_cases hl : c.length = 3
  · simp only [hl, ne_eq, not_true_eq_false, if_false, checkComps_eq_none]
    simp
  · simp only [ne_eq, hl, not_false_eq_true, if_true]
    constructor
    · intro h; exact absurd h (by simp)
    · intro h; exact h.1.elim

/-! ## Claim C3 -/

/-- Claim C3 (amended): for a style whose time window, opacity and font size
are valid, `validate_style` accepts exactly the styles whose four colour
fields are tuples of exactly 3 integer components in `[0, 255]`; any colour
with a different component count (including the 4-component RGBA form the
claim said is accepted), a non-integer component, or an out-of-range
component is rejected with a message. -/
theorem validate_style_color_rule (s : RawStyle)
    (ht1 : 0 ≤ s.start_time)
    (ht2 : ∀ e, s.end_time = some e → s.start_time < e)
    (hop : 0 ≤ s.background_opacity ∧ s.background_opacity ≤ 1)
    (hfs : 0 < s.font_size) :
    ((validateStyle s).1 = true ↔
      (colorOk3 s.font_color ∧ colorOk3 s.background_color ∧
       colorOk3 s.shadow_color ∧ colorOk3 s.border_color)) := by
  unfold validateStyle
  rw [if_neg (by exact not_lt.mpr ht1)]
  have hend : (match s.end_time with
               | some e => decide (e ≤ s.start_time)
               | none => false) = false := by
    cases he : s.end_time with
    | some e => simp only [decide_eq_false_iff_not, not_le]; exact ht2 e he
    | none => rfl
  rw [hend, if_neg (by simp)]
  cases h1 : checkColor "字体颜色" s.font_color with
  | some m =>
      have : ¬ colorOk3 s.font_color := by
        rw [← checkColor_eq_none "字体颜色"]; simp [h1]
      simp [this]
  | none =>
      have hc1 : colorOk3 s.font_color := (checkColor_eq_none _ _).mp h1
      cases h2 : checkColor "背景颜色" s.background_color with
      | some m =>
          have : ¬ colorOk3 s.background_color := by
            rw [← checkColor_eq_none "背景颜色"]; simp [h2]
          simp [this]
      | none =>
          have hc2 : colorOk3 s.background_color := (checkColor_eq_none _ _).mp h2
          cases h3 : checkColor "阴影颜色" s.shadow_color with
          | some m =>
              have : ¬ colorOk3 s.shadow_color := by
                rw [← checkColor_eq_none "阴影颜色"]; simp [h3]
              simp [this]
          | none =>
              have hc3 : colorOk3 s.shadow_color := (checkColor_eq_none _ _).mp h3
              cases h4 : checkColor "边框颜色" s.border_color with
              | some m =>
                  have : ¬ colorOk3 s.border_color := by
                    rw [← checkColor_eq_none "边框颜色"]; simp [h4]
                  simp [this]
              | none =>
                  have hc4 : colorOk3 s.border_color := (checkColor_eq_none _ _).mp h4
                  rw [if_neg (by simp [hop.1, hop.2]), if_neg (by exact not_le.mpr hfs)]
                  simp [hc1, hc2, hc3, hc4]

/-- Counterexample to claim C3 as stated: a 4-component RGBA colour with all
integer components in `[0, 255]` — accepted according to the claim — is
rejected by `validate_style` on an otherwise fully valid style. -/
theorem validate_style_rejects_rgba :
    colorOk34 [some 255, some 255, some 255, some 128] ∧
    validateStyle ⟨0, none, [some 255, some 255, some 255, some 128],
      [some 255, some 255, some 255], [some 128, some 128, some 128],
      [some 0, some 0, some 0], 4 / 5, 24⟩ =
      (false, "字体颜色必须是包含3个元素的元组") := by
  constructor
  · refine ⟨Or.inr rfl, ?_⟩
    intro x hx
    fin_cases hx
    · exact ⟨255, rfl, by norm_num, by norm_num⟩
    · exact ⟨255, rfl, by norm_num, by norm_num⟩
    · exact ⟨255, rfl, by norm_num, by norm_num⟩
    · exact ⟨128, rfl, by norm_num, by norm_num⟩
  · rfl

/-- Witness for claim C3 at a concrete valid style with three-component
colours. -/
theorem validate_style_color_rule_witness :
    (0 : ℚ) ≤ 0 ∧
    (∀ e, (none : Option ℚ) = some e → (0 : ℚ) < e) ∧
    ((0 : ℚ) ≤ 4 / 5 ∧ (4 / 5 : ℚ) ≤ 1) ∧
    (0 : Int) < 24 ∧
    ((validateStyle ⟨0, none, [some 0, some 0, some 0], [some 255, some 255, some 255],
        [some 128, some 128, some 128], [some 0, some 0, some 0], 4 / 5, 24⟩).1 = true ↔
      (colorOk3 [some 0, some 0, some 0] ∧ colorOk3 [some 255, some 255, some 255] ∧
       colorOk3 [some 128, some 128, some 128] ∧ colorOk3 [some 0, some 0, some 0])) :=
  ⟨by norm_num, (fun _ h => nomatch h), ⟨by norm_num, by norm_num⟩, by norm_num,
   validate_style_color_rule _ (by norm_num) (fun _ h => nomatch h)
     ⟨by norm_num, by norm_num⟩ (by norm_num)⟩

theorem sw_text (e : String) : startsW "enable=" ("text='" ++ e ++ "'") = false := rfl
theorem sw_fontfile (p : String) : startsW "enable=" ("fontfile=" ++ p) = false := rfl
theorem sw_fontsize (p : String) : startsW "enable=" ("fontsize=" ++ p) = false := rfl
theorem sw_fontcolor (p : String) : startsW "enable=" ("fontcolor=0x" ++ p) = false := rfl
theorem sw_x (p : String) : startsW "enable=" ("x=" ++ p) = false := rfl
theorem sw_y (p : String) : startsW "enable=" ("y=" ++ p) = false := rfl
theorem sw_ls (p : String) : startsW "enable=" ("line_spacing=" ++ p) = false := rfl
theorem sw_box : startsW "enable=" "box=1" = false := rfl
theorem sw_boxcolor (a b : String) :
    startsW "enable=" ("boxcolor=0x" ++ a ++ b) = false := rfl
theorem sw_boxborderw (p : String) : startsW "enable=" ("boxborderw=" ++ p) = false := rfl
theorem sw_borderw (p : String) : startsW "enable=" ("borderw=" ++ p) = false := rfl
theorem sw_bordercolor (p : String) : startsW "enable=" ("bordercolor=0x" ++ p) = false := rfl
theorem sw_shadowcolor (p : String) : startsW "enable=" ("shadowcolor=0x" ++ p) = false := rfl
theorem sw_shadowx (p : String) : startsW "enable=" ("shadowx=" ++ p) = false := rfl
theorem sw_shadowy (p : String) : startsW "enable=" ("shadowy=" ++ p) = false := rfl
theorem sw_gate (a b : String) :
    startsW "enable=" ("enable='between(t," ++ a ++ "," ++ b ++ ")'") = true := rfl

/-- The gating clause is present in the basic filter parts exactly when the
time window does not cover the whole video. -/
theorem gating_clause_iff (resolve : String → String → String) (s : OverlayStyle)
    (text : String) (vw vh : Int) (dur : ℚ) :
    hasPartWith "enable=" (basicFilterParts resolve s text vw vh dur) = true ↔
      (0 < s.start_time ∨ s.end_time.getD dur < dur) := by
  unfold basicFilterParts hasPartWith
  dsimp only
  simp only [List.any_append, List.any_cons, List.any_nil, Bool.or_eq_true,
    sw_text, sw_fontfile, sw_fontsize, sw_fontcolor, sw_x, sw_y]
  split_ifs with h1 h2 h3 h4 h5 <;>
    simp_all [sw_ls, sw_box, sw_boxcolor, sw_boxborderw, sw_borderw, sw_bordercolor,
      sw_shadowcolor, sw_shadowx, sw_shadowy, sw_gate]

/-! ## Claim C10 -/

/-- Claim C10: the basic drawtext command contains an
`enable='between(t,start,end)'` clause if and only if `start_time > 0` or the
resolved end time (`end_time`, defaulting to the video duration) is strictly
below the video duration; in particular a style with `start_time = 0` and
`end_time = None` gets no gating clause. -/
theorem basic_gating_rule (resolve : String → String → String) (s : OverlayStyle)
    (text : String) (vw vh : Int) (dur : ℚ) :
    (hasPartWith "enable=" (basicFilterParts resolve s text vw vh dur) = true ↔
      (0 < s.start_time ∨ s.end_time.getD dur < dur)) ∧
    hasPartWith "enable="
      (basicFilterParts resolve { s with start_time := 0, end_time := none }
        text vw vh dur) = false := by
  refine ⟨gating_clause_iff resolve s text vw vh dur, ?_⟩
  have h := gating_clause_iff resolve { s with start_time := 0, end_time := none }
    text vw vh dur
  by_cases hb : hasPartWith "enable="
      (basicFilterParts resolve { s with start_time := 0, end_time := none }
        text vw vh dur) = true
  · exfalso
    rcases h.mp hb with h1 | h1
    · exact lt_irrefl (0 : ℚ) h1
    · exact lt_irrefl dur h1
  · exact Bool.eq_false_iff.mpr hb

/-- Every decimal digit character is a non-identifier, allowed character. -/
theorem decDigit_ok (k : Nat) :
    isIdentChar (decDigit k) = false ∧ allowedChar (decDigit k) = true := by
  match k with
  | 0 => decide
  | 1 => decide
  | 2 => decide
  | 3 => decide
  | 4 => decide
  | 5 => decide
  | 6 => decide
  | 7 => decide
  | 8 => decide
  | n + 9 =>
      show isIdentChar '9' = false ∧ allowedChar '9' = true
      decide

/-- All characters produced by the decimal digit renderer are
non-identifier, allowed characters. -/
theorem natDigitsAux_ok (fuel : Nat) :
    ∀ m, ∀ c ∈ natDigitsAux fuel m, isIdentChar c = false ∧ allowedChar c = true := by
  induction fuel with
  | zero => intro m c hc; exact absurd hc (by simp [natDigitsAux])
  | succ k ih =>
      intro m c hc
      match m with
      | 0 => exact absurd hc (by simp [natDigitsAux])
      | j + 1 =>
          rw [natDigitsAux] at hc
          rcases List.mem_append.mp hc with h | h
          · exact ih ((j + 1) / 10) c h
          · rcases List.mem_singleton.mp h with rfl
            exact decDigit_ok _

theorem natDigits_ok (n : Nat) :
    ∀ c ∈ natDigits n, isIdentChar c = false ∧ allowedChar c = true :=
  natDigitsAux_ok n n

/-- The decimal rendering of a natural number is non-empty and made of
non-identifier, allowed characters. -/
theorem natRepr_data_props (n : Nat) :
    (natRepr n).data ≠ [] ∧
    ∀ c ∈ (natRepr n).data, isIdentChar c = false ∧ allowedChar c = true := by
  unfold natRepr
  split
  · constructor
    · decide
    · intro c hc
      have : c = '0' := by simpa using hc
      subst this
      decide
  · next hn =>
      constructor
      · show natDigits n ≠ []
        match n, hn with
        | m + 1, _ => rw [natDigits, natDigitsAux]; simp
      · show ∀ c ∈ natDigits n, _
        exact natDigits_ok n

/-- The decimal rendering of an integer is non-empty and made of
non-identifier, allowed characters. -/
theorem intRepr_data_props (i : Int) :
    (intRepr i).data ≠ [] ∧
    ∀ c ∈ (intRepr i).data, isIdentChar c = false ∧ allowedChar c = true := by
  unfold intRepr
  split
  · obtain ⟨h1, h2⟩ := natRepr_data_props i.natAbs
    have hd : ("-" ++ natRepr i.natAbs).data = '-' :: (natRepr i.natAbs).data := by
      rw [String.data_append]
      rfl
    rw [hd]
    constructor
    · simp
    · intro c hc
      rcases List.mem_cons.mp hc with rfl | hc2
      · decide
      · exact h2 c hc2
  · exact natRepr_data_props i.toNat

/-- The scanner ignores a leading block of non-identifier characters. -/
theorem scanOk_skip_nonident (d : List Char) (hd : ∀ c ∈ d, isIdentChar c = false) :
    ∀ r, scanOk [] (d ++ r) = scanOk [] r := by
  induction d with
  | nil => intro r; rfl
  | cons c rest ih =>
      intro r
      have hc := hd c (List.mem_cons_self _ _)
      show scanOk [] (c :: (rest ++ r)) = scanOk [] r
      rw [scanOk, if_neg (by simp [hc])]
      have : runOk [] = true := rfl
      rw [this, Bool.true_and]
      exact ih (fun c h => hd c (List.mem_cons_of_mem _ h)) r

/-- A list of non-identifier characters passes the scanner. -/
theorem scanOk_nonident (d : List Char) (hd : ∀ c ∈ d, isIdentChar c = false) :
    scanOk [] d = true := by
  have := scanOk_skip_nonident d hd []
  rw [List.append_nil] at this
  rw [this]
  rfl

/-- A bare rendered margin constant is an acceptable expression. -/
theorem exprOk_intRepr (m : Int) : exprOk (intRepr m) = true := by
  obtain ⟨hne, hprops⟩ := intRepr_data_props m
  unfold exprOk
  rw [Bool.and_eq_true, Bool.and_eq_true]
  refine ⟨⟨?_, ?_⟩, ?_⟩
  · simpa using hne
  · exact List.all_eq_true.mpr (fun c hc => (hprops c hc).2)
  · exact scanOk_nonident _ (fun c hc => (hprops c hc).1)

/-- The right-aligned expression `w-text_w-<margin>` is acceptable. -/
theorem exprOk_wtw_sub (m : Int) : exprOk ("w-text_w-" ++ intRepr m) = true := by
  obtain ⟨hne, hprops⟩ := intRepr_data_props m
  unfold exprOk
  rw [Bool.and_eq_true, Bool.and_eq_true]
  refine ⟨⟨?_, ?_⟩, ?_⟩
  · rw [String.data_append]
    rfl
  · rw [String.data_append, List.all_append, Bool.and_eq_true]
    exact ⟨by decide, List.all_eq_true.mpr (fun c hc => (hprops c hc).2)⟩
  · rw [String.data_append]
    change scanOk [] ((intRepr m).data) = true
    exact scanOk_nonident _ (fun c hc => (hprops c hc).1)

/-- The centred expression `(w-text_w-<2*margin>)/2+<margin>` is
acceptable. -/
theorem exprOk_center (a b : Int) :
    exprOk ("(w-text_w-" ++ intRepr a ++ ")/2+" ++ intRepr b) = true := by
  obtain ⟨hnea, hpropsa⟩ := intRepr_data_props a
  obtain ⟨hneb, hpropsb⟩ := intRepr_data_props b
  unfold exprOk
  rw [Bool.and_eq_true, Bool.and_eq_true]
  refine ⟨⟨?_, ?_⟩, ?_⟩
  · simp only [String.data_append]
    rw [List.append_assoc, List.append_assoc]
    rfl
  · simp only [String.data_append, List.all_append, Bool.and_eq_true]
    exact ⟨⟨⟨by decide, List.all_eq_true.mpr (fun c hc => (hpropsa c hc).2)⟩, by decide⟩,
      List.all_eq_true.mpr (fun c hc => (hpropsb c hc).2)⟩
  · simp only [String.data_append]
    rw [List.append_assoc, List.append_assoc]
    change scanOk [] ((intRepr a).data ++ ((")/2+" : String).data ++ (intRepr b).data)) = true
    rw [scanOk_skip_nonident (intRepr a).data (fun c hc => (hpropsa c hc).1)]
    change scanOk [] ((intRepr b).data) = true
    exact scanOk_nonident _ (fun c hc => (hpropsb c hc).1)

/-- The bottom-anchored expression `h-text_h-<margin>` is acceptable. -/
theorem exprOk_hth_sub (m : Int) : exprOk ("h-text_h-" ++ intRepr m) = true := by
  obtain ⟨hne, hprops⟩ := intRepr_data_props m
  unfold exprOk
  rw [Bool.and_eq_true, Bool.and_eq_true]
  refine ⟨⟨?_, ?_⟩, ?_⟩
  · rw [String.data_append]
    rfl
  · rw [String.data_append, List.all_append, Bool.and_eq_true]
    exact ⟨by decide, List.all_eq_true.mpr (fun c hc => (hprops c hc).2)⟩
  · rw [String.data_append]
    change scanOk [] ((intRepr m).data) = true
    exact scanOk_nonident _ (fun c hc => (hprops c hc).1)

/-! ## Claim C8 -/

/-- Claim C8: for every style (any preset string, alignment and margin) and
for every non-CUSTOM `SubtitlePosition`, the generated x and y position
expressions are non-empty and reference only the symbols `w`, `h`, `text_w`,
`text_h` together with numeric margin constants — no pixel dimensions and no
other variables. -/
theorem position_expressions_symbols (s : OverlayStyle) (vw vh : Int)
    (pos : SubtitlePosition) (mx my : Int) (cx cy : Option Int)
    (hpos : pos ≠ SubtitlePosition.custom) :
    (exprOk (getPositionExpression s vw vh).1 = true ∧
     exprOk (getPositionExpression s vw vh).2 = true) ∧
    (exprOk (getPositionFilter pos mx my cx cy).1 = true ∧
     exprOk (getPositionFilter pos mx my cx cy).2 = true) := by
  constructor
  · unfold getPositionExpression
    dsimp only
    constructor
    · split_ifs <;>
        first
          | decide
          | exact exprOk_intRepr _
          | exact exprOk_wtw_sub _
          | exact exprOk_center _ _
    · split_ifs <;> decide
  · cases pos with
    | bottom_center =>
        exact ⟨(by decide : exprOk "(w-text_w)/2" = true), exprOk_hth_sub _⟩
    | bottom_left => exact ⟨exprOk_intRepr _, exprOk_hth_sub _⟩
    | bottom_right => exact ⟨exprOk_wtw_sub _, exprOk_hth_sub _⟩
    | top_center =>
        exact ⟨(by decide : exprOk "(w-text_w)/2" = true), exprOk_intRepr _⟩
    | top_left => exact ⟨exprOk_intRepr _, exprOk_intRepr _⟩
    | top_right => exact ⟨exprOk_wtw_sub _, exprOk_intRepr _⟩
    | center =>
        exact ⟨(by decide : exprOk "(w-text_w)/2" = true),
               (by decide : exprOk "(h-text_h)/2" = true)⟩
    | custom => exact absurd rfl hpos

/-- Witness for claim C8 at the default overlay style and the default
subtitle anchor. -/
theorem position_expressions_symbols_witness :
    SubtitlePosition.bottom_center ≠ SubtitlePosition.custom ∧
    ((exprOk (getPositionExpression defaultOverlayStyle 1920 1080).1 = true ∧
      exprOk (getPositionExpression defaultOverlayStyle 1920 1080).2 = true) ∧
     (exprOk (getPositionFilter SubtitlePosition.bottom_center 120 50 none none).1 = true ∧
      exprOk (getPositionFilter SubtitlePosition.bottom_center 120 50 none none).2 = true)) :=
  ⟨by decide,
   position_expressions_symbols defaultOverlayStyle 1920 1080
     SubtitlePosition.bottom_center 120 50 none none (by decide)⟩

/-! ## Claim C4 -/

/-- Claim C4: for every style with more than one advanced-effect flag set,
`_build_ffmpeg_command` dispatches on the first matching flag in the fixed
if/elif order glow, double-outline, neon, 3D-shadow, glitch (encoded by
`firstEffectFlag` / `onlyFirstEffect`), and the emitted command equals the
one produced when only that first-matching flag is set — every other set
flag is silently ignored. -/
theorem effect_dispatch_first_flag (resolve : String → String → String)
    (trig : Int → ℚ × ℚ) (videoPath text outputPath : String) (s : OverlayStyle)
    (vw vh : Int) (dur : ℚ) (hmulti : 2 ≤ countEffectFlags s) :
    buildFFmpegCommand resolve trig videoPath text outputPath s vw vh dur =
      buildFFmpegCommand resolve trig videoPath text outputPath
        (onlyFirstEffect s) vw vh dur := by
  obtain ⟨f01, f02, f03, f04, f05, f06, f07, f08, f09, f10, f11, f12, f13, f14,
    f15, f16, f17, f18, f19, f20, f21, f22, e1, f24, f25, f26, e2, f28, f29,
    f30, f31, e3, f33, f34, f35, e4, f37, f38, f39, e5, f41, f42⟩ := s
  cases e1 <;> cases e2 <;> cases e3 <;> cases e4 <;> cases e5 <;>
    first
      | rfl
      | (exfalso; revert hmulti; decide)

/-- Witness for claim C4 on a style with both glow and neon enabled. -/
theorem effect_dispatch_witness :
    2 ≤ countEffectFlags
      { defaultOverlayStyle with glow_enabled := true, neon_enabled := true } ∧
    buildFFmpegCommand (fun _ _ => "/tmp/f.ttf") (fun _ => ((0 : ℚ), (0 : ℚ)))
      "in.mp4" "hello" "out.mp4"
      { defaultOverlayStyle with glow_enabled := true, neon_enabled := true }
      1920 1080 10 =
    buildFFmpegCommand (fun _ _ => "/tmp/f.ttf") (fun _ => ((0 : ℚ), (0 : ℚ)))
      "in.mp4" "hello" "out.mp4"
      (onlyFirstEffect
        { defaultOverlayStyle with glow_enabled := true, neon_enabled := true })
      1920 1080 10 :=
  ⟨by decide,
   effect_dispatch_first_flag (fun _ _ => "/tmp/f.ttf") (fun _ => ((0 : ℚ), (0 : ℚ)))
     "in.mp4" "hello" "out.mp4"
     { defaultOverlayStyle with glow_enabled := true, neon_enabled := true }
     1920 1080 10 (by decide)⟩

/-- The layer loop emits one primitive per layer. -/
theorem layerLoop_length (mk : Nat → List String) (lbl : Nat → String) :
    ∀ (n : Nat) (i : Nat) (inL : String), (layerLoop mk lbl inL i n).1.length = n := by
  intro n
  induction n with
  | zero => intro i inL; rfl
  | succ k ih =>
      intro i inL
      show ((⟨inL, mk i, lbl i⟩ : Prim) :: (layerLoop mk lbl (lbl i) (i + 1) k).1).length
        = k + 1
      rw [List.length_cons, ih]

/-- Shape of the primitive the layer loop emits at position `j`. -/
theorem layerLoop_get (mk : Nat → List String) (lbl : Nat → String) :
    ∀ (n : Nat) (i : Nat) (inL : String) (j : Nat), j < n →
      (layerLoop mk lbl inL i n).1.get? j =
        some ⟨if j = 0 then inL else lbl (i + j - 1), mk (i + j), lbl (i + j)⟩ := by
  intro n
  induction n with
  | zero => intro i inL j hj; omega
  | succ k ih =>
      intro i inL j hj
      match j with
      | 0 => simp [layerLoop]
      | m + 1 =>
          show ((⟨inL, mk i, lbl i⟩ : Prim) ::
            (layerLoop mk lbl (lbl i) (i + 1) k).1).get? (m + 1) = _
          rw [List.get?_cons_succ, ih (i + 1) (lbl i) m (by omega)]
          have e1 : (i + 1) + m = i + (m + 1) := by omega
          rw [e1]
          have hif : (if m = 0 then lbl i else lbl (i + (m + 1) - 1)) =
              (if m + 1 = 0 then inL else lbl (i + (m + 1) - 1)) := by
            rw [if_neg (Nat.succ_ne_zero m)]
            by_cases hm : m = 0
            · subst hm
              rw [if_pos rfl]
              congr 1
            · rw [if_neg hm]
          rw [hif]

/-- The label the layer loop leaves as current input. -/
theorem layerLoop_out (mk : Nat → List String) (lbl : Nat → String) :
    ∀ (n : Nat) (i : Nat) (inL : String),
      (layerLoop mk lbl inL i n).2 = if n = 0 then inL else lbl (i + n - 1) := by
  intro n
  induction n with
  | zero => intro i inL; rfl
  | succ k ih =>
      intro i inL
      show (layerLoop mk lbl (lbl i) (i + 1) k).2 = _
      rw [ih (i + 1) (lbl i), if_neg (Nat.succ_ne_zero k)]
      by_cases hk : k = 0
      · subst hk; simp
      · rw [if_neg hk]
        have : (i + 1) + k - 1 = i + (k + 1) - 1 := by omega
        rw [this]

/-- The layer loop chains each primitive on the previous output label. -/
theorem layerLoop_chained (mk : Nat → List String) (lbl : Nat → String) :
    ∀ (n : Nat) (i : Nat) (inL : String),
      wellChained inL (layerLoop mk lbl inL i n).1 = true := by
  intro n
  induction n with
  | zero => intro i inL; rfl
  | succ k ih =>
      intro i inL
      show wellChained inL (⟨inL, mk i, lbl i⟩ :: (layerLoop mk lbl (lbl i) (i + 1) k).1)
        = true
      rw [wellChained]
      simp only [beq_self_eq_true, Bool.true_and]
      exact ih (i + 1) (lbl i)

/-- The last output label of the loop equals its returned label. -/
theorem layerLoop_lastOut (mk : Nat → List String) (lbl : Nat → String) :
    ∀ (n : Nat) (i : Nat) (inL : String),
      lastOutLabel inL (layerLoop mk lbl inL i n).1 = (layerLoop mk lbl inL i n).2 := by
  intro n
  induction n with
  | zero => intro i inL; rfl
  | succ k ih =>
      intro i inL
      show lastOutLabel inL (⟨inL, mk i, lbl i⟩ :: (layerLoop mk lbl (lbl i) (i + 1) k).1)
        = (layerLoop mk lbl (lbl i) (i + 1) k).2
      rw [lastOutLabel]
      exact ih (i + 1) (lbl i)

/-- Every primitive the layer loop emits carries the parts of some layer
index. -/
theorem layerLoop_parts_mem (mk : Nat → List String) (lbl : Nat → String) :
    ∀ (n : Nat) (i : Nat) (inL : String),
      ∀ p ∈ (layerLoop mk lbl inL i n).1, ∃ j, p.parts = mk j := by
  intro n
  induction n with
  | zero => intro i inL p hp; exact absurd hp (by simp [layerLoop])
  | succ k ih =>
      intro i inL p hp
      have : p ∈ (⟨inL, mk i, lbl i⟩ : Prim) :: (layerLoop mk lbl (lbl i) (i + 1) k).1 := hp
      rcases List.mem_cons.mp this with rfl | h2
      · exact ⟨i, rfl⟩
      · exact ih (i + 1) (lbl i) p h2

/-- Chaining decomposes over list append. -/
theorem wellChained_append :
    ∀ (l1 l2 : List Prim) (inL : String),
      wellChained inL (l1 ++ l2) =
        (wellChained inL l1 && wellChained (lastOutLabel inL l1) l2) := by
  intro l1
  induction l1 with
  | nil => intro l2 inL; simp [wellChained, lastOutLabel]
  | cons p rest ih =>
      intro l2 inL
      show (p.inL == inL && wellChained p.outL (rest ++ l2)) =
        ((p.inL == inL && wellChained p.outL rest) &&
          wellChained (lastOutLabel p.outL rest) l2)
      rw [ih l2 p.outL, Bool.and_assoc]

/-- Lemmas `swb_*`: none of the non-box filter parts starts with `"box"`;
the `box=1` part does. -/
theorem swb_text (p : String) : startsW "box" ("text='" ++ p) = false := rfl
theorem swb_fontfile (p : String) : startsW "box" ("fontfile=" ++ p) = false := rfl
theorem swb_fontsize (p : String) : startsW "box" ("fontsize=" ++ p) = false := rfl
theorem swb_fontcolor (p : String) : startsW "box" ("fontcolor=0x" ++ p) = false := rfl
theorem swb_fontcolor3d (p : String) :
    startsW "box" ("fontcolor=0x000000" ++ p) = false := rfl
theorem swb_x (p : String) : startsW "box" ("x=" ++ p) = false := rfl
theorem swb_y (p : String) : startsW "box" ("y=" ++ p) = false := rfl
theorem swb_ls (p : String) : startsW "box" ("line_spacing=" ++ p) = false := rfl
theorem swb_gate (p : String) :
    startsW "box" ("enable='between(t," ++ p) = false := rfl
theorem swb_borderw (p : String) : startsW "box" ("borderw=" ++ p) = false := rfl
theorem swb_bordercolor (p : String) :
    startsW "box" ("bordercolor=0x" ++ p) = false := rfl
theorem swb_shadowcolor (p : String) :
    startsW "box" ("shadowcolor=0x" ++ p) = false := rfl
theorem swb_shadowcolor3d (p : String) :
    startsW "box" ("shadowcolor=0x000000" ++ p) = false := rfl
theorem swb_shadowx (p : String) : startsW "box" ("shadowx=" ++ p) = false := rfl
theorem swb_shadowy (p : String) : startsW "box" ("shadowy=" ++ p) = false := rfl
theorem swb_shadowblur (p : String) : startsW "box" ("shadowblur=" ++ p) = false := rfl
theorem swb_closed :
    startsW "box" "box=1" = true ∧
    startsW "box" "shadowx=0" = false ∧
    startsW "box" "shadowy=0" = false ∧
    startsW "box" "fontcolor=0x00000000" = false ∧
    startsW "box" "fontcolor=0xFF0000FF" = false ∧
    startsW "box" "fontcolor=0x00FFFFFF" = false ∧
    startsW "box" "borderw=2" = false ∧
    startsW "box" "bordercolor=0xFFFFFFFF" = false := by decide

/-- The shared base text configuration contains no box parameter. -/
theorem boxfree_baseTextConfig (resolve : String → String → String) (s : OverlayStyle)
    (text : String) (vw vh : Int) (dur : ℚ) :
    hasPartWith "box" (baseTextConfig resolve s text vw vh dur) = false := by
  unfold baseTextConfig hasPartWith
  dsimp only
  simp only [List.any_append, List.any_cons, List.any_nil, String.append_assoc,
    swb_text, swb_fontfile, swb_fontsize, swb_x, swb_y, Bool.or_false, Bool.false_or]
  split_ifs <;>
    simp [swb_ls, swb_gate]

/-- The main-text layer adds no box parameter. -/
theorem boxfree_mainTextParts (bp : List String) (s : OverlayStyle)
    (hbp : hasPartWith "box" bp = false) :
    hasPartWith "box" (mainTextParts bp s) = false := by
  unfold mainTextParts hasPartWith
  unfold hasPartWith at hbp
  simp only [List.any_append, List.any_cons, List.any_nil, String.append_assoc,
    swb_fontcolor, hbp, Bool.or_false, Bool.false_or]
  split_ifs <;> simp [swb_borderw, swb_bordercolor]

/-- Glow layers add no box parameter. -/
theorem boxfree_glowLayer (bp : List String) (s : OverlayStyle) (j : Nat)
    (hbp : hasPartWith "box" bp = false) :
    hasPartWith "box" (glowLayerParts bp s j) = false := by
  unfold glowLayerParts hasPartWith
  unfold hasPartWith at hbp
  simp [List.any_append, String.append_assoc, swb_fontcolor, swb_shadowcolor,
    swb_shadowx, swb_shadowy, swb_shadowblur, hbp]

/-- Neon layers add no box parameter. -/
theorem boxfree_neonLayer (bp : List String) (s : OverlayStyle) (j : Nat)
    (hbp : hasPartWith "box" bp = false) :
    hasPartWith "box" (neonLayerParts bp s j) = false := by
  unfold neonLayerParts hasPartWith
  unfold hasPartWith at hbp
  simp [List.any_append, String.append_assoc, swb_shadowcolor, hbp, swb_closed.2.1,
    swb_closed.2.2.1, swb_closed.2.2.2.1]

/-- 3D-shadow layers add no box parameter. -/
theorem boxfree_shadow3dLayer (trig : Int → ℚ × ℚ) (bp : List String)
    (s : OverlayStyle) (j : Nat) (hbp : hasPartWith "box" bp = false) :
    hasPartWith "box" (shadow3dLayerParts trig bp s j) = false := by
  unfold shadow3dLayerParts hasPartWith
  unfold hasPartWith at hbp
  simp [List.any_append, String.append_assoc, swb_fontcolor3d, swb_shadowcolor3d,
    swb_shadowx, swb_shadowy, hbp]

/-- No primitive of any advanced-effect chain carries a box parameter. -/
theorem advChain_boxfree (resolve : String → String → String) (trig : Int → ℚ × ℚ)
    (s : OverlayStyle) (text : String) (vw vh : Int) (dur : ℚ) :
    ∀ p ∈ (advChain resolve trig s text vw vh dur).1,
      hasPartWith "box" p.parts = false := by
  have hbp := boxfree_baseTextConfig resolve s text vw vh dur
  unfold advChain
  dsimp only
  split_ifs with h1 h2 h3 h4 h5
  · intro p hp
    rcases List.mem_append.mp hp with hp1 | hp2
    · obtain ⟨j, hj⟩ := layerLoop_parts_mem _ _ 3 0 "0:v" p hp1
      rw [hj]
      exact boxfree_glowLayer _ s j hbp
    · rcases List.mem_singleton.mp hp2 with rfl
      exact boxfree_mainTextParts _ s hbp
  · intro p hp
    rcases List.mem_cons.mp hp with rfl | hp2
    · show hasPartWith "box" (_ ++ _) = false
      unfold hasPartWith
      unfold hasPartWith at hbp
      simp [List.any_append, String.append_assoc, swb_borderw, swb_bordercolor,
        swb_closed.2.2.2.1, hbp]
    · rcases List.mem_cons.mp hp2 with rfl | hp3
      · show hasPartWith "box" (_ ++ _) = false
        unfold hasPartWith
        unfold hasPartWith at hbp
        simp [List.any_append, String.append_assoc, swb_borderw, swb_bordercolor,
          swb_closed.2.2.2.1, hbp]
      · rcases List.mem_singleton.mp hp3 with rfl
        show hasPartWith "box" (_ ++ _) = false
        unfold hasPartWith
        unfold hasPartWith at hbp
        simp [List.any_append, String.append_assoc, swb_fontcolor, hbp]
  · intro p hp
    rcases List.mem_append.mp hp with hp1 | hp2
    · obtain ⟨j, hj⟩ := layerLoop_parts_mem _ _ s.neon_glow_layers 0 "0:v" p hp1
      rw [hj]
      exact boxfree_neonLayer _ s j hbp
    · rcases List.mem_singleton.mp hp2 with rfl
      show hasPartWith "box" (_ ++ _) = false
      unfold hasPartWith
      unfold hasPartWith at hbp
      simp [List.any_append, String.append_assoc, swb_fontcolor, hbp,
        swb_closed.2.2.2.2.2.2.1, swb_closed.2.2.2.2.2.2.2]
  · intro p hp
    rcases List.mem_append.mp hp with hp1 | hp2
    · obtain ⟨j, hj⟩ := layerLoop_parts_mem _ _ s.shadow_3d_layers 0 "0:v" p hp1
      rw [hj]
      exact boxfree_shadow3dLayer trig _ s j hbp
    · rcases List.mem_singleton.mp hp2 with rfl
      exact boxfree_mainTextParts _ s hbp
  · intro p hp
    by_cases hcs : s.glitch_color_shift = true
    · rw [addGlitchEffect, if_pos hcs] at hp
      dsimp only at hp
      rcases List.mem_append.mp hp with hp1 | hp2
      · rcases List.mem_cons.mp hp1 with rfl | hp1b
        · show hasPartWith "box" (_ ++ _) = false
          unfold hasPartWith
          unfold hasPartWith at hbp
          simp [List.any_append, String.append_assoc, swb_x, hbp,
            swb_closed.2.2.2.2.1]
        · rcases List.mem_singleton.mp hp1b with rfl
          show hasPartWith "box" (_ ++ _) = false
          unfold hasPartWith
          unfold hasPartWith at hbp
          simp [List.any_append, String.append_assoc, swb_x, hbp,
            swb_closed.2.2.2.2.2.1]
      · rcases List.mem_singleton.mp hp2 with rfl
        exact boxfree_mainTextParts _ s hbp
    · rw [addGlitchEffect, if_neg hcs] at hp
      dsimp only at hp
      rcases List.mem_singleton.mp hp with rfl
      exact boxfree_mainTextParts _ s hbp
  · intro p hp
    rcases List.mem_singleton.mp hp with rfl
    exact hbp

/-! ## Claim C2 -/

/-- Claim C2 (amended): the background box, when enabled, is drawn inside
the single drawtext primitive of the basic path (hence trivially first and
never interleaved), and in every advanced-effect path — glow, double
outline, neon, 3D shadow, glitch, and the fallback branch — no primitive of
the compiled chain carries any box parameter at all: the box is dropped, not
reordered. -/
theorem background_box_rule (resolve : String → String → String)
    (trig : Int → ℚ × ℚ) (s : OverlayStyle) (text : String) (vw vh : Int) (dur : ℚ) :
    (hasPartWith "box" (basicFilterParts resolve s text vw vh dur) = true ↔
      s.background_enabled = true) ∧
    ∀ p ∈ (advChain resolve trig s text vw vh dur).1,
      hasPartWith "box" p.parts = false := by
  refine ⟨?_, advChain_boxfree resolve trig s text vw vh dur⟩
  unfold basicFilterParts hasPartWith
  dsimp only
  simp only [List.any_append, List.any_cons, List.any_nil, String.append_assoc,
    swb_text, swb_fontfile, swb_fontsize, swb_fontcolor, swb_x, swb_y,
    Bool.or_false, Bool.false_or]
  split_ifs with h1 h2 h3 h4 h5 <;>
    simp_all [swb_ls, swb_gate, swb_borderw, swb_bordercolor, swb_shadowcolor,
      swb_shadowx, swb_shadowy, swb_closed.1]

/-- Counterexample to claim C2 as stated: with the background box enabled
and the glow effect on, the compiled chain has four primitives and none of
them — in particular not the first — draws the background box. -/
theorem background_box_not_first_in_glow :
    ({ defaultOverlayStyle with glow_enabled := true } : OverlayStyle).background_enabled
      = true ∧
    (advChain (fun _ _ => "/tmp/f.ttf") (fun _ => ((0 : ℚ), (0 : ℚ)))
        { defaultOverlayStyle with glow_enabled := true } "hi" 1920 1080 10).1.length
      = 4 ∧
    ((advChain (fun _ _ => "/tmp/f.ttf") (fun _ => ((0 : ℚ), (0 : ℚ)))
        { defaultOverlayStyle with glow_enabled := true } "hi" 1920 1080 10).1.all
      fun p => !hasPartWith "box" p.parts) = true := by
  refine ⟨rfl, ?_, ?_⟩ <;> decide

/-! ## Claim C6 -/

/-- Claim C6 (amended): compiling the glow effect emits a chain of exactly 4
drawtext primitives — 3 glow layers drawn with the glow colour as fill AND
shadow colour (not with a transparent fill, as the claim stated) with blur
`glow_intensity + 2*i`, then 1 main layer with the font colour — chained
through the 4 distinct labels `glow0`, `glow1`, `glow2`, `glow_final`, and
the last label is exactly the label the command's `-map` argument selects as
final output. -/
theorem glow_chain_structure (resolve : String → String → String)
    (trig : Int → ℚ × ℚ) (s : OverlayStyle) (text : String) (vw vh : Int) (dur : ℚ)
    (hglow : s.glow_enabled = true) :
    (advChain resolve trig s text vw vh dur).1 =
      [⟨"0:v", glowLayerParts (baseTextConfig resolve s text vw vh dur) s 0, "glow0"⟩,
       ⟨"glow0", glowLayerParts (baseTextConfig resolve s text vw vh dur) s 1, "glow1"⟩,
       ⟨"glow1", glowLayerParts (baseTextConfig resolve s text vw vh dur) s 2, "glow2"⟩,
       ⟨"glow2", mainTextParts (baseTextConfig resolve s text vw vh dur) s,
        "glow_final"⟩] ∧
    (advChain resolve trig s text vw vh dur).1.length = 4 ∧
    wellChained "0:v" (advChain resolve trig s text vw vh dur).1 = true ∧
    (["glow0", "glow1", "glow2", "glow_final"] : List String).Nodup ∧
    (advChain resolve trig s text vw vh dur).2 = "glow_final" ∧
    lastOutLabel "0:v" (advChain resolve trig s text vw vh dur).1 =
      (advChain resolve trig s text vw vh dur).2 ∧
    (buildAdvancedCommand resolve trig "in.mp4" text "out.mp4" s vw vh dur).get? 6 =
      some ("[" ++ (advChain resolve trig s text vw vh dur).2 ++ "]") := by
  have hc : advChain resolve trig s text vw vh dur =
      addGlowEffect (baseTextConfig resolve s text vw vh dur) "0:v" s := by
    unfold advChain
    rw [if_pos hglow]
  rw [hc]
  refine ⟨rfl, rfl, rfl, by decide, rfl, rfl, ?_⟩
  unfold buildAdvancedCommand
  rw [hc]
  rfl

/-- Counterexample to claim C6 as stated: at the default style with glow
enabled, none of the three glow layers is a transparent-fill drawtext
(`fontcolor=0x00000000` never occurs); the first layer in particular is not
transparent. -/
theorem glow_layers_not_transparent :
    (({ defaultOverlayStyle with glow_enabled := true } : OverlayStyle).glow_enabled
      = true) ∧
    (((advChain (fun _ _ => "/tmp/f.ttf") (fun _ => ((0 : ℚ), (0 : ℚ)))
        { defaultOverlayStyle with glow_enabled := true } "hi" 1920 1080 10).1.take 3).all
      fun p => !transparentFillParts p.parts) = true ∧
    ((advChain (fun _ _ => "/tmp/f.ttf") (fun _ => ((0 : ℚ), (0 : ℚ)))
          { defaultOverlayStyle with glow_enabled := true } "hi" 1920 1080 10).1.head?.map
      fun p => transparentFillParts p.parts) = some false := by
  refine ⟨rfl, ?_, ?_⟩ <;> decide

/-- Witness for claim C6 at the default style with glow enabled. -/
theorem glow_chain_structure_witness :
    (({ defaultOverlayStyle with glow_enabled := true } : OverlayStyle).glow_enabled
      = true) ∧
    (advChain (fun _ _ => "/tmp/f.ttf") (fun _ => ((0 : ℚ), (0 : ℚ)))
        { defaultOverlayStyle with glow_enabled := true } "hi" 1920 1080 10).1.length
      = 4 :=
  ⟨rfl,
   (glow_chain_structure (fun _ _ => "/tmp/f.ttf") (fun _ => ((0 : ℚ), (0 : ℚ)))
     { defaultOverlayStyle with glow_enabled := true } "hi" 1920 1080 10 rfl).2.1⟩

/-- The last output label decomposes over list append. -/
theorem lastOutLabel_append :
    ∀ (l1 l2 : List Prim) (inL : String),
      lastOutLabel inL (l1 ++ l2) = lastOutLabel (lastOutLabel inL l1) l2 := by
  intro l1
  induction l1 with
  | nil => intro l2 inL; rfl
  | cons p rest ih =>
      intro l2 inL
      show lastOutLabel p.outL (rest ++ l2) = lastOutLabel (lastOutLabel p.outL rest) l2
      exact ih l2 p.outL

/-- Lemmas `sws_*`: no emitted filter part starts with `"shadowblur="`
except the glow layers' explicit blur parameter. -/
theorem sws_text (p : String) : startsW "shadowblur=" ("text='" ++ p) = false := rfl
theorem sws_fontfile (p : String) :
    startsW "shadowblur=" ("fontfile=" ++ p) = false := rfl
theorem sws_fontsize (p : String) :
    startsW "shadowblur=" ("fontsize=" ++ p) = false := rfl
theorem sws_fontcolor (p : String) :
    startsW "shadowblur=" ("fontcolor=0x" ++ p) = false := rfl
theorem sws_x (p : String) : startsW "shadowblur=" ("x=" ++ p) = false := rfl
theorem sws_y (p : String) : startsW "shadowblur=" ("y=" ++ p) = false := rfl
theorem sws_ls (p : String) :
    startsW "shadowblur=" ("line_spacing=" ++ p) = false := rfl
theorem sws_gate (p : String) :
    startsW "shadowblur=" ("enable='between(t," ++ p) = false := rfl
theorem sws_shadowcolor (p : String) :
    startsW "shadowblur=" ("shadowcolor=0x" ++ p) = false := rfl
theorem sws_closed :
    startsW "shadowblur=" "fontcolor=0x00000000" = false ∧
    startsW "shadowblur=" "shadowx=0" = false ∧
    startsW "shadowblur=" "shadowy=0" = false ∧
    startsW "shadowblur=" "borderw=2" = false ∧
    startsW "shadowblur=" "bordercolor=0xFFFFFFFF" = false := by decide

/-- The shared base text configuration contains no blur parameter. -/
theorem blurfree_baseTextConfig (resolve : String → String → String)
    (s : OverlayStyle) (text : String) (vw vh : Int) (dur : ℚ) :
    hasPartWith "shadowblur=" (baseTextConfig resolve s text vw vh dur) = false := by
  unfold baseTextConfig hasPartWith
  dsimp only
  simp only [List.any_append, List.any_cons, List.any_nil, String.append_assoc,
    sws_text, sws_fontfile, sws_fontsize, sws_x, sws_y, Bool.or_false, Bool.false_or]
  split_ifs <;> simp [sws_ls, sws_gate]

/-- Neon layers emit no blur parameter (the source computes `blur_size` but
never appends it). -/
theorem blurfree_neonLayer (bp : List String) (s : OverlayStyle) (j : Nat)
    (hbp : hasPartWith "shadowblur=" bp = false) :
    hasPartWith "shadowblur=" (neonLayerParts bp s j) = false := by
  unfold neonLayerParts hasPartWith
  unfold hasPartWith at hbp
  simp [List.any_append, String.append_assoc, sws_shadowcolor, hbp, sws_closed.1,
    sws_closed.2.1, sws_closed.2.2.1]

/-! ## Claim C7 -/

/-- Claim C7 (amended): when the neon effect is the one compiled, each of the
`neon_glow_layers` passes is a transparent-fill drawtext
(`fontcolor=0x00000000`) whose shadow colour is the neon base colour with
alpha `max(80 - 20*i, 20)` — non-increasing, strictly decreasing while above
the floor 20 — and zero shadow offsets; no pass carries any blur parameter
(the claim's "blur strictly increases per layer" is computed as dead code
but never emitted); the final pass is an opaque fill in the neon base colour
with the fixed `borderw=2`, white border. -/
theorem neon_chain_structure (resolve : String → String → String)
    (trig : Int → ℚ × ℚ) (s : OverlayStyle) (text : String) (vw vh : Int) (dur : ℚ)
    (hneon : s.neon_enabled = true) (hg : s.glow_enabled = false)
    (hd : s.double_outline_enabled = false) :
    (advChain resolve trig s text vw vh dur).1.length = s.neon_glow_layers + 1 ∧
    (∀ j, j < s.neon_glow_layers →
      (advChain resolve trig s text vw vh dur).1.get? j =
        some ⟨if j = 0 then "0:v" else "neon" ++ natRepr (j - 1),
          neonLayerParts (baseTextConfig resolve s text vw vh dur) s j,
          "neon" ++ natRepr j⟩) ∧
    (advChain resolve trig s text vw vh dur).1.get? s.neon_glow_layers =
      some ⟨if s.neon_glow_layers = 0 then "0:v"
            else "neon" ++ natRepr (s.neon_glow_layers - 1),
        baseTextConfig resolve s text vw vh dur ++
          ["fontcolor=0x" ++ hex6 s.neon_base_color, "borderw=2",
           "bordercolor=0xFFFFFFFF"],
        "neon_final"⟩ ∧
    (advChain resolve trig s text vw vh dur).2 = "neon_final" ∧
    wellChained "0:v" (advChain resolve trig s text vw vh dur).1 = true ∧
    lastOutLabel "0:v" (advChain resolve trig s text vw vh dur).1 =
      (advChain resolve trig s text vw vh dur).2 ∧
    (∀ j, neonAlpha (j + 1) ≤ neonAlpha j ∧ 20 ≤ neonAlpha j ∧
      (20 < neonAlpha j → neonAlpha (j + 1) < neonAlpha j)) ∧
    (∀ p ∈ (advChain resolve trig s text vw vh dur).1,
      hasPartWith "shadowblur=" p.parts = false) := by
  have hc : advChain resolve trig s text vw vh dur =
      addNeonEffect (baseTextConfig resolve s text vw vh dur) "0:v" s := by
    unfold advChain
    rw [if_neg (by simp [hg]), if_neg (by simp [hd]), if_pos hneon]
  have hbp := blurfree_baseTextConfig resolve s text vw vh dur
  rw [hc]
  unfold addNeonEffect
  dsimp only
  refine ⟨?_, ?_, ?_, rfl, ?_, ?_, ?_, ?_⟩
  · rw [List.length_append, layerLoop_length]
    rfl
  · intro j hj
    rw [List.get?_append (by rw [layerLoop_length]; exact hj),
      layerLoop_get _ _ s.neon_glow_layers 0 "0:v" j hj]
    simp only [Nat.zero_add]
  · rw [List.get?_append_right (by rw [layerLoop_length])]
    rw [layerLoop_length, Nat.sub_self]
    rw [layerLoop_out, Nat.zero_add]
    rfl
  · rw [wellChained_append, layerLoop_chained, layerLoop_lastOut, Bool.true_and]
    show ((layerLoop _ _ "0:v" 0 s.neon_glow_layers).2 ==
      (layerLoop _ _ "0:v" 0 s.neon_glow_layers).2 && true) = true
    simp
  · rw [lastOutLabel_append, layerLoop_lastOut]
    rfl
  · intro j
    unfold neonAlpha
    refine ⟨?_, ?_, ?_⟩ <;> omega
  · intro p hp
    rcases List.mem_append.mp hp with hp1 | hp2
    · obtain ⟨j, hj⟩ := layerLoop_parts_mem _ _ s.neon_glow_layers 0 "0:v" p hp1
      rw [hj]
      exact blurfree_neonLayer _ s j hbp
    · rcases List.mem_singleton.mp hp2 with rfl
      show hasPartWith "shadowblur=" (_ ++ _) = false
      unfold hasPartWith
      unfold hasPartWith at hbp
      simp [List.any_append, String.append_assoc, sws_fontcolor, hbp,
        sws_closed.2.2.2.1, sws_closed.2.2.2.2]

/-- Counterexample to claim C7 as stated: at the default style with neon
enabled no pass carries a `shadowblur=` parameter at all, so the per-layer
blur cannot strictly increase. -/
theorem neon_layers_have_no_blur :
    (({ defaultOverlayStyle with neon_enabled := true } : OverlayStyle).neon_enabled
      = true) ∧
    ((advChain (fun _ _ => "/tmp/f.ttf") (fun _ => ((0 : ℚ), (0 : ℚ)))
        { defaultOverlayStyle with neon_enabled := true } "hi" 1920 1080 10).1.head?.map
      fun p => hasPartWith "shadowblur=" p.parts) = some false ∧
    ((advChain (fun _ _ => "/tmp/f.ttf") (fun _ => ((0 : ℚ), (0 : ℚ)))
        { defaultOverlayStyle with neon_enabled := true } "hi" 1920 1080 10).1.all
      fun p => !hasPartWith "shadowblur=" p.parts) = true := by
  refine ⟨rfl, ?_, ?_⟩ <;> decide

/-- Witness for claim C7 at the default style with neon enabled. -/
theorem neon_chain_structure_witness :
    (({ defaultOverlayStyle with neon_enabled := true } : OverlayStyle).neon_enabled
      = true) ∧
    (({ defaultOverlayStyle with neon_enabled := true } : OverlayStyle).glow_enabled
      = false) ∧
    (({ defaultOverlayStyle with neon_enabled := true } :
        OverlayStyle).double_outline_enabled = false) ∧
    (advChain (fun _ _ => "/tmp/f.ttf") (fun _ => ((0 : ℚ), (0 : ℚ)))
        { defaultOverlayStyle with neon_enabled := true } "hi" 1920 1080 10).1.length
      = ({ defaultOverlayStyle with neon_enabled := true } :
          OverlayStyle).neon_glow_layers + 1 :=
  ⟨rfl, rfl, rfl,
   (neon_chain_structure (fun _ _ => "/tmp/f.ttf") (fun _ => ((0 : ℚ), (0 : ℚ)))
     { defaultOverlayStyle with neon_enabled := true } "hi" 1920 1080 10
     rfl rfl rfl).1⟩
